import Mathlib

/-!
# Distributed print-shop routing: a shallow embedding

This file embeds the core of the distributed print-shop order-routing system
(models/shop.py, models/order.py, models/cluster.py, routing/optimizer.py,
routing/router.py) in Lean and proves properties of the embedded code.

Modelling conventions:

* Python integers become `Int`; Python floats used for scoring and time
  estimates become `Rat` (exact arithmetic; the claims under study only
  involve values where float rounding plays no role).
* The Haversine great-circle distance (`Location.distance_to`) uses
  transcendental float arithmetic and is therefore treated as a parameter
  `dist : Location → Location → Rat` of every definition that measures
  distance.  No claim studied here depends on specific distance values;
  concrete instantiations use co-located points, for which the real
  Haversine distance is 0.
* `PrintShop` (models/shop.py) and the runtime state of `PrintShopNode`
  (network/node.py) implement the identical capacity/fulfilment logic
  (`has_capacity`, `reserve_capacity`, `release_capacity`,
  `can_fulfill_item` are line-for-line the same); they are embedded as the
  single structure `PrintShop`.
* `order.py` stores `product_type` as a raw string while shop capabilities
  are members of the `Capability` enumeration; following the data model of
  the specification (§3), the embedding uses `Capability` on both sides.
* Python `dict`s become association lists that preserve the insertion
  order of keys; Python `set`s of shops become lists (the arbitrary set
  iteration order is represented by the list order).
* Fields of only observational interest (timestamps, design notes,
  logging, the production queues) are dropped; they are never read by the
  routed-capacity logic under study.
* The one division by zero the routing path can actually raise — the
  capability term of the cluster score (optimizer.py:119-121), hit
  whenever an admissible cluster is ranked for an order with an empty item
  list — is modelled exactly, as an `Except.error` that
  `_try_cluster_routing` propagates to `route_order`'s
  `except Exception` handler.  The remaining divisions are either guarded
  in the source or have a zero denominator only outside the order/shop
  data model (an empty-item order scored against a zero-daily-capacity
  online shop); for those the embedding uses the total `Rat` division
  (`x / 0 = 0`), and every theorem whose scope could touch such a corner
  carries the delimiting hypotheses explicitly.

A few methods invoked by `routing/router.py` are absent from the source
tree (`RouteOptimizer.score_nodes`, `RouteOptimizer.score_clusters`,
`PrintShopNode.can_fulfill_entire_order`, `PrintShopNode.fulfill_items`);
they are modelled from the specification and clearly marked below.
-/

/-- Closed enumeration of product types (models/shop.py `Capability`). -/
inductive Capability
  | tshirt
  | hoodie
  | mug
  | bottle
  | sticker
  | poster
  | business_card
  | postcard
deriving DecidableEq

/-- Shop status (models/shop.py `ShopStatus`). -/
inductive ShopStatus
  | online
  | offline
  | maintenance
  | limited
deriving DecidableEq

/-- models/shop.py `InventoryItem` (the `last_updated` timestamp is dropped). -/
structure InventoryItem where
  sku : String
  quantity : Int
  reorder_point : Int
  max_quantity : Int
deriving DecidableEq

/-- Geographic point (models/shop.py `Location`); coordinates as exact
rationals.  The Haversine `distance_to` is a parameter `dist` throughout. -/
structure Location where
  latitude : Rat
  longitude : Rat
deriving DecidableEq

/-- models/shop.py `PrintShop`, merged with the identical runtime capacity
state of network/node.py `PrintShopNode` (see the header).  `inventory` is
the sku-keyed dictionary, embedded as a list of `InventoryItem`s with
distinct skus (dict keys are unique). -/
structure PrintShop where
  id : String
  name : String
  location : Location
  capabilities : List Capability
  daily_capacity : Int
  status : ShopStatus
  current_capacity : Int
  inventory : List InventoryItem
deriving DecidableEq

namespace PrintShop

/-- Dictionary lookup `self.inventory[sku]` (first — unique — matching sku). -/
def findInventory (s : PrintShop) (sku : String) : Option InventoryItem :=
  s.inventory.find? (fun it => it.sku == sku)

/-- models/shop.py `PrintShop.has_capacity`. -/
def has_capacity (s : PrintShop) (quantity : Int) : Bool :=
  s.status == ShopStatus.online && quantity ≤ s.current_capacity

/-- models/shop.py `PrintShop.reserve_capacity`: returns the Python boolean
and the updated shop. -/
def reserve_capacity (s : PrintShop) (quantity : Int) : Bool × PrintShop :=
  if s.has_capacity quantity then
    (true, { s with current_capacity := s.current_capacity - quantity })
  else
    (false, s)

/-- models/shop.py `PrintShop.release_capacity`. -/
def release_capacity (s : PrintShop) (quantity : Int) : PrintShop :=
  { s with current_capacity := min s.daily_capacity (s.current_capacity + quantity) }

/-- models/shop.py `PrintShop.can_fulfill_item`.  The Python guard
`if sku and sku in self.inventory` checks truthiness, so an absent sku
(`None`) and the empty string both skip the inventory check. -/
def can_fulfill_item (s : PrintShop) (product_type : Capability) (quantity : Int)
    (sku : Option String) : Bool :=
  if product_type ∉ s.capabilities then false
  else if ¬ s.has_capacity quantity then false
  else
    match sku with
    | none => true
    | some sk =>
      if sk ≠ "" then
        match s.findInventory sk with
        | some it => quantity ≤ it.quantity
        | none => true
      else true

end PrintShop

/-- order.py `OrderPriority`. -/
inductive OrderPriority
  | low
  | normal
  | high
  | rush
deriving DecidableEq

/-- order.py `OrderStatus`. -/
inductive OrderStatus
  | created
  | assigned
  | in_production
  | completed
  | failed
deriving DecidableEq

/-- order.py `OrderItem` (pydantic model, frozen, value equality; the
`notes`/production-tracking fields are dropped).  `product_type` uses the
`Capability` enumeration, per spec §3 (see header). -/
structure OrderItem where
  product_type : Capability
  quantity : Int
  design_url : String
  sku : Option String
deriving DecidableEq

/-- order.py `Order` (timestamps and tracking metadata dropped). -/
structure Order where
  id : String
  customer_location : Location
  items : List OrderItem
  status : OrderStatus
  priority : OrderPriority
deriving DecidableEq

namespace Order

/-- Total requested quantity, `sum(item.quantity for item in order.items)`. -/
def totalQuantity (o : Order) : Int :=
  (o.items.map OrderItem.quantity).sum

/-- order.py `Order.estimated_production_time` (hours, exact rationals). -/
def estimated_production_time (o : Order) : Rat :=
  let base_time : Rat := 24
  let mult : Rat :=
    match o.priority with
    | .low => 3/2
    | .normal => 1
    | .high => 3/4
    | .rush => 1/2
  let t := base_time * mult
  if 100 < o.totalQuantity then t * (3/2) else t

end Order

/-- Stable descending sort by a key, embedding Python's
`sorted(xs, key=…, reverse=True)` (Python's sort is stable; an element is
inserted before the first element whose key is ≤ its own). -/
def sortByKeyDesc {α β : Type} [LinearOrder β] (key : α → β) (l : List α) : List α :=
  l.insertionSort (fun a b => key b ≤ key a)

theorem sortByKeyDesc_perm {α β : Type} [LinearOrder β] (key : α → β) (l : List α) :
    (sortByKeyDesc key l).Perm l :=
  List.perm_insertionSort _ l

theorem sortByKeyDesc_sorted {α β : Type} [LinearOrder β] (key : α → β) (l : List α) :
    (sortByKeyDesc key l).Sorted (fun a b => key b ≤ key a) := by
  haveI : IsTotal α (fun a b => key b ≤ key a) := ⟨fun a b => le_total (key b) (key a)⟩
  haveI : IsTrans α (fun a b => key b ≤ key a) :=
    ⟨fun _ _ _ h1 h2 => le_trans h2 h1⟩
  exact List.sorted_insertionSort _ l

/-! ## Node-level operation sequences (claim C4) -/

/-- One capacity operation on a node, as in claim C4: a `reserve_capacity`
or `release_capacity` call. -/
inductive NodeOp
  | reserve (quantity : Int)
  | release (quantity : Int)
deriving DecidableEq

/-- Apply one capacity operation (the boolean result of a reservation is
discarded; a failed reservation leaves the shop unchanged). -/
def PrintShop.applyOp (s : PrintShop) : NodeOp → PrintShop
  | .reserve q => (s.reserve_capacity q).2
  | .release q => s.release_capacity q

/-- The quantity carried by a `NodeOp`. -/
def NodeOp.quantity : NodeOp → Int
  | .reserve q => q
  | .release q => q

/-- Capacity bounds are preserved by a single non-negative operation. -/
theorem PrintShop.applyOp_bounds (s : PrintShop) (op : NodeOp)
    (hq : 0 ≤ op.quantity)
    (h0 : 0 ≤ s.current_capacity) (h1 : s.current_capacity ≤ s.daily_capacity) :
    0 ≤ (s.applyOp op).current_capacity ∧
      (s.applyOp op).current_capacity ≤ (s.applyOp op).daily_capacity := by
  cases op with
  | reserve q =>
    simp only [NodeOp.quantity] at hq
    simp only [applyOp, reserve_capacity, has_capacity] at *
    split
    · next h =>
      simp only [Bool.and_eq_true, decide_eq_true_eq, beq_iff_eq] at h
      constructor
      · simpa using h.2
      · simp only []
        omega
    · exact ⟨h0, h1⟩
  | release q =>
    simp only [applyOp, release_capacity, NodeOp.quantity] at *
    constructor
    · simp only [le_min_iff]
      constructor <;> omega
    · exact min_le_left _ _

/-- **C4.** Node capacity invariant: starting from a freshly created node
(`__post_init__` sets `current_capacity = daily_capacity`) with
`daily_capacity ≥ 0`, any sequence of `reserve_capacity`/`release_capacity`
calls with non-negative quantities keeps
`0 ≤ current_capacity ≤ daily_capacity`. -/
theorem node_capacity_invariant (s : PrintShop) (ops : List NodeOp)
    (hfresh : s.current_capacity = s.daily_capacity)
    (hdaily : 0 ≤ s.daily_capacity)
    (hops : ∀ op ∈ ops, 0 ≤ op.quantity) :
    0 ≤ (ops.foldl PrintShop.applyOp s).current_capacity ∧
      (ops.foldl PrintShop.applyOp s).current_capacity ≤
        (ops.foldl PrintShop.applyOp s).daily_capacity := by
  have main : ∀ (l : List NodeOp) (t : PrintShop),
      (∀ op ∈ l, 0 ≤ op.quantity) →
      0 ≤ t.current_capacity → t.current_capacity ≤ t.daily_capacity →
      0 ≤ (l.foldl PrintShop.applyOp t).current_capacity ∧
        (l.foldl PrintShop.applyOp t).current_capacity ≤
          (l.foldl PrintShop.applyOp t).daily_capacity := by
    intro l
    induction l with
    | nil => intro t _ h0 h1; exact ⟨h0, h1⟩
    | cons op rest ih =>
      intro t hl h0 h1
      have hop := hl op (List.mem_cons_self _ _)
      have step := t.applyOp_bounds op hop h0 h1
      exact ih (t.applyOp op) (fun o ho => hl o (List.mem_cons_of_mem _ ho)) step.1 step.2
  exact main ops s hops (hfresh ▸ hdaily) (le_of_eq hfresh)

/-- Witness for C4 at a concrete node and operation sequence. -/
theorem node_capacity_invariant_witness :
    let s : PrintShop :=
      { id := "w4", name := "w4", location := ⟨0, 0⟩,
        capabilities := [Capability.tshirt], daily_capacity := 100,
        status := ShopStatus.online, current_capacity := 100, inventory := [] }
    let ops := [NodeOp.reserve 30, NodeOp.release 10, NodeOp.reserve 80]
    0 ≤ (ops.foldl PrintShop.applyOp s).current_capacity ∧
      (ops.foldl PrintShop.applyOp s).current_capacity ≤
        (ops.foldl PrintShop.applyOp s).daily_capacity := by
  exact node_capacity_invariant _ _ (by decide) (by decide) (by decide)

/-! ## reserve_capacity semantics (claim C6) -/

/-- **C6.** `reserve_capacity(qty)` returns true and decrements
`current_capacity` by exactly `qty` when the shop is ONLINE with
`current_capacity ≥ qty`; otherwise it returns false and leaves the shop
entirely unchanged. -/
theorem reserve_capacity_semantics (s : PrintShop) (qty : Int) :
    (s.status = ShopStatus.online ∧ qty ≤ s.current_capacity →
      (s.reserve_capacity qty).1 = true ∧
        (s.reserve_capacity qty).2 =
          { s with current_capacity := s.current_capacity - qty }) ∧
    (¬ (s.status = ShopStatus.online ∧ qty ≤ s.current_capacity) →
      (s.reserve_capacity qty).1 = false ∧ (s.reserve_capacity qty).2 = s) := by
  constructor
  · intro ⟨h1, h2⟩
    have hc : s.has_capacity qty = true := by
      simp [PrintShop.has_capacity, h1, h2]
    simp [PrintShop.reserve_capacity, hc]
  · intro h
    have hc : s.has_capacity qty = false := by
      simp only [PrintShop.has_capacity, Bool.and_eq_false_iff, beq_eq_false_iff_ne,
        ne_eq, decide_eq_false_iff_not, not_le]
      by_cases hs : s.status = ShopStatus.online
      · right
        by_contra hq
        exact h ⟨hs, by omega⟩
      · exact Or.inl hs
    simp [PrintShop.reserve_capacity, hc]

/-- Witness for C6, exercising both the successful and the failing branch
at concrete shops. -/
theorem reserve_capacity_semantics_witness :
    let s : PrintShop :=
      { id := "w6", name := "w6", location := ⟨0, 0⟩,
        capabilities := [], daily_capacity := 50,
        status := ShopStatus.online, current_capacity := 50, inventory := [] }
    ((s.reserve_capacity 20).1 = true ∧
      (s.reserve_capacity 20).2 = { s with current_capacity := 30 }) ∧
    ((s.reserve_capacity 60).1 = false ∧ (s.reserve_capacity 60).2 = s) := by
  intro s
  refine ⟨?_, ?_⟩
  · have h := (reserve_capacity_semantics s 20).1 ⟨by decide, by decide⟩
    exact ⟨h.1, h.2.trans (by decide)⟩
  · exact (reserve_capacity_semantics s 60).2 (by decide)

/-! ## Untracked SKUs impose no inventory constraint (claim C10) -/

/-- **C10.** For an ONLINE node whose capabilities contain the requested
product type and with `current_capacity ≥ qty`, `can_fulfill_item` returns
true for every SKU that is not in the inventory map, however large `qty`
is.  (shop.py and network/node.py implement the identical check.) -/
theorem can_fulfill_item_untracked_sku (s : PrintShop) (pt : Capability)
    (qty : Int) (sku : String)
    (hcap : pt ∈ s.capabilities)
    (hon : s.status = ShopStatus.online)
    (hq : qty ≤ s.current_capacity)
    (huntracked : s.findInventory sku = none) :
    s.can_fulfill_item pt qty (some sku) = true := by
  have hhc : s.has_capacity qty = true := by
    simp [PrintShop.has_capacity, hon, hq]
  simp only [PrintShop.can_fulfill_item, hcap, hhc, huntracked]
  simp

/-- Witness for C10 at a concrete shop and a very large quantity. -/
theorem can_fulfill_item_untracked_sku_witness :
    let s : PrintShop :=
      { id := "w10", name := "w10", location := ⟨0, 0⟩,
        capabilities := [Capability.mug], daily_capacity := 1000000000,
        status := ShopStatus.online, current_capacity := 1000000000,
        inventory := [⟨"SKU-A", 3, 50, 1000⟩] }
    s.can_fulfill_item Capability.mug 999999999 (some "SKU-B") = true := by
  exact can_fulfill_item_untracked_sku _ _ _ _ (by decide) (by decide)
    (by decide) (by decide)

/-! ## Cluster model (models/cluster.py) -/

/-- models/cluster.py `ClusterMetrics`. -/
structure ClusterMetrics where
  total_capacity : Int
  available_capacity : Int
  active_orders : Int
  total_orders_processed : Int
deriving DecidableEq

/-- models/cluster.py `Cluster` (creation timestamp dropped; the member
set becomes a list, see the header). -/
structure Cluster where
  id : String
  center_location : Location
  radius_miles : Rat
  nodes : List PrintShop
  metrics : ClusterMetrics
deriving DecidableEq

/-- Remove the first shop with the given id (Python set removal; shops
hash/compare by id). -/
def removeFirstById : List PrintShop → String → List PrintShop
  | [], _ => []
  | t :: ts, i => if t.id == i then ts else t :: removeFirstById ts i

namespace Cluster

/-- models/cluster.py `Cluster.add_node`: accept iff the shop is within
the radius; increment total and available capacity by `daily_capacity`. -/
def add_node (dist : Location → Location → Rat) (c : Cluster) (s : PrintShop) :
    Bool × Cluster :=
  if dist c.center_location s.location ≤ c.radius_miles then
    (true,
      { c with
        nodes := c.nodes ++ [s],
        metrics :=
          { c.metrics with
            total_capacity := c.metrics.total_capacity + s.daily_capacity,
            available_capacity := c.metrics.available_capacity + s.daily_capacity } })
  else (false, c)

/-- models/cluster.py `Cluster.remove_node`: if a member with this id is
present, remove it and decrement both capacity metrics by the argument's
`daily_capacity`. -/
def remove_node (c : Cluster) (s : PrintShop) : Cluster :=
  if c.nodes.any (fun t => t.id == s.id) then
    { c with
      nodes := removeFirstById c.nodes s.id,
      metrics :=
        { c.metrics with
          total_capacity := c.metrics.total_capacity - s.daily_capacity,
          available_capacity := c.metrics.available_capacity - s.daily_capacity } }
  else c

/-- models/cluster.py `Cluster.can_fulfill_order`: the required capability
set must be covered by the union of member capabilities, and the total
requested quantity must not exceed the recorded available capacity. -/
def can_fulfill_order (c : Cluster) (o : Order) : Bool :=
  (o.items.all fun it => c.nodes.any fun s => it.product_type ∈ s.capabilities) &&
    o.totalQuantity ≤ c.metrics.available_capacity

end Cluster

/-! The allocation loop of `Cluster.allocate_order`.  The loop state pairs
every (sorted) member shop with the quantity reserved on it so far in this
call (the `reserved_capacities` dictionary, keyed here by position, which
mirrors Python's keying by object identity). -/

/-- The inner `for node in sorted_nodes` scan for one item: find the first
member that `can_fulfill_item` and whose `reserve_capacity` succeeds,
update it, and report the chosen member's id. -/
def allocScan (item : OrderItem) :
    List (PrintShop × Int) → Option (List (PrintShop × Int) × String)
  | [] => none
  | p :: rest =>
    if p.1.can_fulfill_item item.product_type item.quantity item.sku &&
        (p.1.reserve_capacity item.quantity).1 then
      some (((p.1.reserve_capacity item.quantity).2, p.2 + item.quantity) :: rest, p.1.id)
    else
      match allocScan item rest with
      | none => none
      | some (rest', sid) => some (p :: rest', sid)

/-- `allocation[node].append(item)` on the id-keyed allocation dictionary:
append to the (unique) entry with this key, or insert a new entry at the
end on first use. -/
def addAlloc : List (String × List OrderItem) → String → OrderItem →
    List (String × List OrderItem)
  | [], sid, item => [(sid, [item])]
  | kv :: rest, sid, item =>
    if kv.1 == sid then (kv.1, kv.2 ++ [item]) :: rest
    else kv :: addAlloc rest sid item

/-- `sum(i.quantity for items in allocation.values() for i in items)`. -/
def allocTotal (alloc : List (String × List OrderItem)) : Int :=
  (alloc.map (fun kv => (kv.2.map OrderItem.quantity).sum)).sum

/-- The `while remaining_items` loop: allocate items one at a time; on the
first item with no eligible member, release every reservation made so far
(the rollback) and fail. -/
def allocLoop :
    List OrderItem → List (PrintShop × Int) → List (String × List OrderItem) →
      Option (List (String × List OrderItem)) × List PrintShop
  | [], pairs, alloc => (some alloc, pairs.map Prod.fst)
  | item :: rest, pairs, alloc =>
    match allocScan item pairs with
    | none => (none, pairs.map (fun p => p.1.release_capacity p.2))
    | some (pairs', sid) => allocLoop rest pairs' (addAlloc alloc sid item)

namespace Cluster

/-- models/cluster.py `Cluster.allocate_order`.  Members are sorted by
static `daily_capacity` descending (the code comments call this "a proxy
sort order" for runtime capacity).  On success the allocation mapping is
returned (keyed by member id) and `metrics` is updated; on failure every
reservation is released and nothing else changes.

`node.fulfill_items(items)`, called on success, is absent from the source
tree; modelled from the spec: it starts production asynchronously and does
not change any capacity at allocation time. -/
def allocate_order (c : Cluster) (o : Order) :
    Option (List (String × List OrderItem)) × Cluster :=
  let sorted := sortByKeyDesc PrintShop.daily_capacity c.nodes
  let r := allocLoop o.items (sorted.map (fun s => (s, (0 : Int)))) []
  match r.1 with
  | none => (none, { c with nodes := r.2 })
  | some alloc =>
    (some alloc,
      { c with
        nodes := r.2,
        metrics :=
          { c.metrics with
            available_capacity := c.metrics.available_capacity - allocTotal alloc,
            active_orders := c.metrics.active_orders + 1,
            total_orders_processed := c.metrics.total_orders_processed + 1 } })

/-- models/cluster.py `Cluster.route_order`: admissibility filter, then
allocation. -/
def route_order (c : Cluster) (o : Order) :
    Option (List (String × List OrderItem)) × Cluster :=
  if c.can_fulfill_order o then c.allocate_order o else (none, c)

end Cluster

/-! ## Rollback exactness (claim C1) -/

/-- The loop invariant of `allocLoop`: a loop-state shop is its pre-call
value minus exactly the quantity reserved on it in this call. -/
def ReservedFrom (p : PrintShop × Int) (s0 : PrintShop) : Prop :=
  p.1 = { s0 with current_capacity := s0.current_capacity - p.2 }

theorem reservedFrom_init (l : List PrintShop) :
    List.Forall₂ ReservedFrom (l.map (fun s => (s, (0 : Int)))) l := by
  induction l with
  | nil => exact List.Forall₂.nil
  | cons s t ih =>
    refine List.Forall₂.cons ?_ ih
    simp [ReservedFrom]

theorem allocScan_inv {item : OrderItem} {pairs pairs' : List (PrintShop × Int)}
    {sid : String} {ns0 : List PrintShop}
    (hF : List.Forall₂ ReservedFrom pairs ns0)
    (h : allocScan item pairs = some (pairs', sid)) :
    List.Forall₂ ReservedFrom pairs' ns0 := by
  induction hF generalizing pairs' sid with
  | nil => simp [allocScan] at h
  | cons hR hF ih =>
    next p s0 ps t0 =>
    rw [allocScan] at h
    split at h
    · next hcond =>
      simp only [Bool.and_eq_true] at hcond
      obtain ⟨hfit, hres⟩ := hcond
      have hcap : p.1.has_capacity item.quantity = true := by
        by_contra hc
        simp only [Bool.not_eq_true] at hc
        simp [PrintShop.reserve_capacity, hc] at hres
      simp only [Option.some.injEq, Prod.mk.injEq] at h
      obtain ⟨hp', hsid⟩ := h
      subst hp'
      refine List.Forall₂.cons ?_ hF
      simp only [ReservedFrom] at hR ⊢
      rw [PrintShop.reserve_capacity, if_pos hcap]
      show ({ p.1 with current_capacity := p.1.current_capacity - item.quantity } : PrintShop)
          = { s0 with current_capacity := s0.current_capacity - (p.2 + item.quantity) }
      rw [hR]
      show ({ s0 with current_capacity := s0.current_capacity - p.2 - item.quantity } : PrintShop)
          = { s0 with current_capacity := s0.current_capacity - (p.2 + item.quantity) }
      have harith : s0.current_capacity - p.2 - item.quantity
          = s0.current_capacity - (p.2 + item.quantity) := by ring
      rw [harith]
    · revert h
      cases hrec : allocScan item ps with
      | none => intro h; simp at h
      | some v =>
        intro h
        simp only [Option.some.injEq, Prod.mk.injEq] at h
        obtain ⟨hp', _⟩ := h
        subst hp'
        exact List.Forall₂.cons hR (ih (by rw [hrec]))

theorem rollback_exact {pairs : List (PrintShop × Int)} {ns0 : List PrintShop}
    (hF : List.Forall₂ ReservedFrom pairs ns0)
    (hb : ∀ s0 ∈ ns0, s0.current_capacity ≤ s0.daily_capacity) :
    pairs.map (fun p => p.1.release_capacity p.2) = ns0 := by
  induction hF with
  | nil => rfl
  | cons hR hF ih =>
    next p s0 ps t0 =>
    simp only [List.map_cons]
    have hb0 := hb s0 (List.mem_cons_self _ _)
    have htail := ih (fun x hx => hb x (List.mem_cons_of_mem _ hx))
    rw [htail]
    simp only [ReservedFrom] at hR
    rw [hR]
    simp only [PrintShop.release_capacity]
    have harith : s0.current_capacity - p.2 + p.2 = s0.current_capacity := by ring
    rw [harith, min_eq_right hb0]

theorem allocLoop_none_rollback :
    ∀ (items : List OrderItem) (pairs : List (PrintShop × Int))
      (alloc : List (String × List OrderItem)) (ns0 : List PrintShop),
      List.Forall₂ ReservedFrom pairs ns0 →
      (∀ s0 ∈ ns0, s0.current_capacity ≤ s0.daily_capacity) →
      (allocLoop items pairs alloc).1 = none →
      (allocLoop items pairs alloc).2 = ns0 := by
  intro items
  induction items with
  | nil => intro pairs alloc ns0 _ _ h; simp [allocLoop] at h
  | cons item rest ih =>
    intro pairs alloc ns0 hF hb h
    rw [allocLoop] at h ⊢
    cases hscan : allocScan item pairs with
    | none => exact rollback_exact hF hb
    | some v =>
      obtain ⟨pairs', sid⟩ := v
      rw [hscan] at h
      exact ih _ _ _ (allocScan_inv hF hscan) hb h

/-- **C1.** All-or-nothing cluster allocation: whenever
`Cluster.allocate_order` returns null, every member node's
`current_capacity` equals its pre-call value — the returned member list is
exactly the (sorted) pre-call member list, hence a permutation of the
members with all state intact, and the metrics are untouched.  The
hypothesis is the node capacity invariant (claim C4). -/
theorem cluster_allocate_rollback (c : Cluster) (o : Order)
    (hinv : ∀ s ∈ c.nodes, s.current_capacity ≤ s.daily_capacity)
    (hfail : (c.allocate_order o).1 = none) :
    (c.allocate_order o).2.nodes = sortByKeyDesc PrintShop.daily_capacity c.nodes ∧
      (c.allocate_order o).2.nodes.Perm c.nodes ∧
      (c.allocate_order o).2.metrics = c.metrics := by
  have hb : ∀ s0 ∈ sortByKeyDesc PrintShop.daily_capacity c.nodes,
      s0.current_capacity ≤ s0.daily_capacity := by
    intro s0 hs0
    exact hinv s0 ((sortByKeyDesc_perm PrintShop.daily_capacity c.nodes).mem_iff.mp hs0)
  rw [Cluster.allocate_order] at hfail ⊢
  cases hr : (allocLoop o.items
      ((sortByKeyDesc PrintShop.daily_capacity c.nodes).map (fun s => (s, (0 : Int))))
      []).1 with
  | some v => rw [hr] at hfail; simp at hfail
  | none =>
    have hnodes := allocLoop_none_rollback o.items _ [] _
      (reservedFrom_init (sortByKeyDesc PrintShop.daily_capacity c.nodes)) hb hr
    refine ⟨hnodes, ?_, rfl⟩
    show (allocLoop o.items
        ((sortByKeyDesc PrintShop.daily_capacity c.nodes).map (fun s => (s, (0 : Int))))
        []).2.Perm c.nodes
    rw [hnodes]
    exact sortByKeyDesc_perm PrintShop.daily_capacity c.nodes

/-- Witness for C1 at a concrete cluster: the first item is reserved on
member "a", the second finds no eligible member, and the rollback restores
both members exactly. -/
theorem cluster_allocate_rollback_witness :
    let a : PrintShop :=
      { id := "a", name := "a", location := ⟨0, 0⟩,
        capabilities := [Capability.tshirt], daily_capacity := 100,
        status := ShopStatus.online, current_capacity := 100, inventory := [] }
    let b : PrintShop :=
      { id := "b", name := "b", location := ⟨0, 0⟩,
        capabilities := [Capability.tshirt], daily_capacity := 50,
        status := ShopStatus.online, current_capacity := 50, inventory := [] }
    let c : Cluster :=
      { id := "k1", center_location := ⟨0, 0⟩, radius_miles := 100,
        nodes := [a, b], metrics := ⟨150, 150, 0, 0⟩ }
    let o : Order :=
      { id := "o1", customer_location := ⟨0, 0⟩,
        items := [⟨Capability.tshirt, 60, "d0", none⟩,
                  ⟨Capability.tshirt, 60, "d1", none⟩,
                  ⟨Capability.tshirt, 60, "d2", none⟩],
        status := OrderStatus.created, priority := OrderPriority.normal }
    (c.allocate_order o).1 = none ∧
      ((c.allocate_order o).2.nodes = sortByKeyDesc PrintShop.daily_capacity c.nodes ∧
        (c.allocate_order o).2.nodes.Perm c.nodes ∧
        (c.allocate_order o).2.metrics = c.metrics) := by
  exact ⟨by decide, cluster_allocate_rollback _ _ (by decide) (by decide)⟩

/-! ## Scan order of the allocation (claim C7) -/

/-- The claim's reading of the per-item step: assign the item to the first
member, in the given member order, that satisfies `can_fulfill_item` and
whose `reserve_capacity` succeeds. -/
def specPick (item : OrderItem) : List PrintShop → Option (List PrintShop × String)
  | [] => none
  | s :: rest =>
    if s.can_fulfill_item item.product_type item.quantity item.sku &&
        (s.reserve_capacity item.quantity).1 then
      some ((s.reserve_capacity item.quantity).2 :: rest, s.id)
    else
      match specPick item rest with
      | none => none
      | some (rest', sid) => some (s :: rest', sid)

/-- The claim's reading of the item loop: allocate the items in order; fail
as soon as one item has no eligible member. -/
def specAllocLoop :
    List OrderItem → List PrintShop → List (String × List OrderItem) →
      Option (List PrintShop × List (String × List OrderItem))
  | [], ns, alloc => some (ns, alloc)
  | item :: rest, ns, alloc =>
    match specPick item ns with
    | none => none
    | some (ns', sid) => specAllocLoop rest ns' (addAlloc alloc sid item)

/-- Allocation as described by the claim, parameterised by the sort key:
scan members in descending `key` order and assign each item, in order, to
the first eligible member; all-or-nothing (a failure leaves every member
exactly as before the call, with no explicit reservation ledger).
Instantiated at `PrintShop.current_capacity` this is claim C7's description
verbatim; at `PrintShop.daily_capacity` it is the amended claim. -/
def clusterAllocateByKey (key : PrintShop → Int) (c : Cluster) (o : Order) :
    Option (List (String × List OrderItem)) × Cluster :=
  let sorted := sortByKeyDesc key c.nodes
  match specAllocLoop o.items sorted [] with
  | none => (none, { c with nodes := sorted })
  | some (ns', alloc) =>
    (some alloc,
      { c with
        nodes := ns',
        metrics :=
          { c.metrics with
            available_capacity := c.metrics.available_capacity - allocTotal alloc,
            active_orders := c.metrics.active_orders + 1,
            total_orders_processed := c.metrics.total_orders_processed + 1 } })

theorem allocScan_toSpec (item : OrderItem) :
    ∀ pairs : List (PrintShop × Int),
      specPick item (pairs.map Prod.fst) =
        Option.map (fun v => (v.1.map Prod.fst, v.2)) (allocScan item pairs) := by
  intro pairs
  induction pairs with
  | nil => rfl
  | cons p rest ih =>
    rw [List.map_cons, specPick, allocScan]
    split
    · next hcond => simp
    · next hcond =>
      rw [ih]
      cases allocScan item rest with
      | none => rfl
      | some v => simp

theorem allocLoop_toSpec :
    ∀ (items : List OrderItem) (pairs : List (PrintShop × Int))
      (alloc : List (String × List OrderItem)) (ns0 : List PrintShop),
      List.Forall₂ ReservedFrom pairs ns0 →
      (∀ s0 ∈ ns0, s0.current_capacity ≤ s0.daily_capacity) →
      allocLoop items pairs alloc =
        match specAllocLoop items (pairs.map Prod.fst) alloc with
        | none => (none, ns0)
        | some (ns', al) => (some al, ns') := by
  intro items
  induction items with
  | nil => intro pairs alloc ns0 _ _; rfl
  | cons item rest ih =>
    intro pairs alloc ns0 hF hb
    rw [allocLoop, specAllocLoop, allocScan_toSpec]
    cases hscan : allocScan item pairs with
    | none => exact congrArg (Prod.mk none) (rollback_exact hF hb)
    | some v =>
      obtain ⟨pairs', sid⟩ := v
      simp only [Option.map_some']
      exact ih _ _ _ (allocScan_inv hF hscan) hb

/-- **C7 (amended).** `Cluster.allocate_order` scans members in descending
order of their static `daily_capacity` (not their current capacity; the
code comments call the static capacity "a proxy sort order"), assigning
each item, in order, to the first member in that sorted order that
satisfies `can_fulfill_item` and whose `reserve_capacity` succeeds: the
method coincides with the claim-shaped greedy allocator keyed by
`daily_capacity`, whose scan list is a permutation of the members sorted
descending by `daily_capacity`. -/
theorem cluster_allocate_scan_order (c : Cluster) (o : Order)
    (hinv : ∀ s ∈ c.nodes, s.current_capacity ≤ s.daily_capacity) :
    c.allocate_order o = clusterAllocateByKey PrintShop.daily_capacity c o ∧
      (sortByKeyDesc PrintShop.daily_capacity c.nodes).Sorted
        (fun a b => b.daily_capacity ≤ a.daily_capacity) ∧
      (sortByKeyDesc PrintShop.daily_capacity c.nodes).Perm c.nodes := by
  refine ⟨?_, sortByKeyDesc_sorted _ _, sortByKeyDesc_perm _ _⟩
  have hb : ∀ s0 ∈ sortByKeyDesc PrintShop.daily_capacity c.nodes,
      s0.current_capacity ≤ s0.daily_capacity := by
    intro s0 hs0
    exact hinv s0 ((sortByKeyDesc_perm PrintShop.daily_capacity c.nodes).mem_iff.mp hs0)
  have hloop := allocLoop_toSpec o.items
    ((sortByKeyDesc PrintShop.daily_capacity c.nodes).map (fun s => (s, (0 : Int)))) []
    (sortByKeyDesc PrintShop.daily_capacity c.nodes) (reservedFrom_init _) hb
  have hmap : ((sortByKeyDesc PrintShop.daily_capacity c.nodes).map
      (fun s => (s, (0 : Int)))).map Prod.fst
      = sortByKeyDesc PrintShop.daily_capacity c.nodes := by
    simp [List.map_map, Function.comp_def]
  rw [hmap] at hloop
  rw [Cluster.allocate_order, clusterAllocateByKey]
  simp only []
  rw [hloop]
  cases specAllocLoop o.items (sortByKeyDesc PrintShop.daily_capacity c.nodes) [] with
  | none => rfl
  | some v => obtain ⟨ns', al⟩ := v; rfl

/-- Witness for the amended C7 at a concrete cluster with a successful
two-member allocation. -/
theorem cluster_allocate_scan_order_witness :
    let a : PrintShop :=
      { id := "a", name := "a", location := ⟨0, 0⟩,
        capabilities := [Capability.tshirt], daily_capacity := 100,
        status := ShopStatus.online, current_capacity := 80, inventory := [] }
    let b : PrintShop :=
      { id := "b", name := "b", location := ⟨0, 0⟩,
        capabilities := [Capability.tshirt], daily_capacity := 50,
        status := ShopStatus.online, current_capacity := 50, inventory := [] }
    let c : Cluster :=
      { id := "k7", center_location := ⟨0, 0⟩, radius_miles := 100,
        nodes := [b, a], metrics := ⟨150, 130, 0, 0⟩ }
    let o : Order :=
      { id := "o7", customer_location := ⟨0, 0⟩,
        items := [⟨Capability.tshirt, 70, "d0", none⟩,
                  ⟨Capability.tshirt, 40, "d1", none⟩],
        status := OrderStatus.created, priority := OrderPriority.normal }
    c.allocate_order o = clusterAllocateByKey PrintShop.daily_capacity c o ∧
      ((sortByKeyDesc PrintShop.daily_capacity c.nodes).Sorted
        (fun x y => y.daily_capacity ≤ x.daily_capacity) ∧
        (sortByKeyDesc PrintShop.daily_capacity c.nodes).Perm c.nodes) := by
  have h := cluster_allocate_scan_order
    { id := "k7", center_location := ⟨0, 0⟩, radius_miles := 100,
      nodes := [{ id := "b", name := "b", location := ⟨0, 0⟩,
                  capabilities := [Capability.tshirt], daily_capacity := 50,
                  status := ShopStatus.online, current_capacity := 50, inventory := [] },
                { id := "a", name := "a", location := ⟨0, 0⟩,
                  capabilities := [Capability.tshirt], daily_capacity := 100,
                  status := ShopStatus.online, current_capacity := 80, inventory := [] }],
      metrics := ⟨150, 130, 0, 0⟩ }
    { id := "o7", customer_location := ⟨0, 0⟩,
      items := [⟨Capability.tshirt, 70, "d0", none⟩,
                ⟨Capability.tshirt, 40, "d1", none⟩],
      status := OrderStatus.created, priority := OrderPriority.normal }
    (by decide)
  exact ⟨h.1, h.2.1, h.2.2⟩

/-- **C7 (counterexample).** A cluster whose member "a" has the larger
static daily capacity but the smaller current capacity: the code assigns
the item to "a" (daily-capacity order), while the claimed
current-capacity-descending scan would assign it to "b" — so the claim as
stated is false on this input. -/
theorem cluster_allocate_sort_counterexample :
    let a : PrintShop :=
      { id := "a", name := "a", location := ⟨0, 0⟩,
        capabilities := [Capability.tshirt], daily_capacity := 100,
        status := ShopStatus.online, current_capacity := 10, inventory := [] }
    let b : PrintShop :=
      { id := "b", name := "b", location := ⟨0, 0⟩,
        capabilities := [Capability.tshirt], daily_capacity := 50,
        status := ShopStatus.online, current_capacity := 50, inventory := [] }
    let c : Cluster :=
      { id := "k7c", center_location := ⟨0, 0⟩, radius_miles := 100,
        nodes := [a, b], metrics := ⟨150, 60, 0, 0⟩ }
    let o : Order :=
      { id := "o7c", customer_location := ⟨0, 0⟩,
        items := [⟨Capability.tshirt, 5, "d", none⟩],
        status := OrderStatus.created, priority := OrderPriority.normal }
    (c.allocate_order o).1 = some [("a", [⟨Capability.tshirt, 5, "d", none⟩])] ∧
      (clusterAllocateByKey PrintShop.current_capacity c o).1
        = some [("b", [⟨Capability.tshirt, 5, "d", none⟩])] ∧
      c.allocate_order o ≠ clusterAllocateByKey PrintShop.current_capacity c o := by
  exact ⟨by decide, by decide, by decide⟩

/-! ## Cluster metrics under operation sequences (claim C5) -/

/-- Sum of the current capacities of a list of shops. -/
def curSum (l : List PrintShop) : Int :=
  (l.map PrintShop.current_capacity).sum

theorem curSum_cons (s : PrintShop) (l : List PrintShop) :
    curSum (s :: l) = s.current_capacity + curSum l := by
  simp [curSum]

theorem curSum_perm {l1 l2 : List PrintShop} (h : l1.Perm l2) :
    curSum l1 = curSum l2 :=
  (h.map _).sum_eq

/-- Sum of the current capacities of the shops in a loop state. -/
def pairsCurSum (l : List (PrintShop × Int)) : Int :=
  curSum (l.map Prod.fst)

theorem pairsCurSum_cons (p : PrintShop × Int) (l : List (PrintShop × Int)) :
    pairsCurSum (p :: l) = p.1.current_capacity + pairsCurSum l := by
  simp [pairsCurSum, curSum]

theorem addAlloc_total (alloc : List (String × List OrderItem)) (sid : String)
    (item : OrderItem) :
    allocTotal (addAlloc alloc sid item) = allocTotal alloc + item.quantity := by
  induction alloc with
  | nil => simp [addAlloc, allocTotal]
  | cons kv rest ih =>
    rw [addAlloc]
    split
    · simp [allocTotal]
      ring
    · simp only [allocTotal, List.map_cons, List.sum_cons] at ih ⊢
      rw [ih]
      ring

theorem allocScan_effects {item : OrderItem} :
    ∀ {pairs pairs' : List (PrintShop × Int)} {sid : String},
      allocScan item pairs = some (pairs', sid) →
      (pairsCurSum pairs' = pairsCurSum pairs - item.quantity)
      ∧ (0 ≤ item.quantity →
          (∀ p ∈ pairs, 0 ≤ p.1.current_capacity ∧ p.1.current_capacity ≤ p.1.daily_capacity) →
          ∀ p ∈ pairs', 0 ≤ p.1.current_capacity ∧ p.1.current_capacity ≤ p.1.daily_capacity) := by
  intro pairs
  induction pairs with
  | nil => intro pairs' sid h; simp [allocScan] at h
  | cons p rest ih =>
    intro pairs' sid h
    rw [allocScan] at h
    split at h
    · next hcond =>
      simp only [Bool.and_eq_true] at hcond
      obtain ⟨hfit, hres⟩ := hcond
      have hcap : p.1.has_capacity item.quantity = true := by
        by_contra hc
        simp only [Bool.not_eq_true] at hc
        simp [PrintShop.reserve_capacity, hc] at hres
      have hqle : item.quantity ≤ p.1.current_capacity := by
        simp only [PrintShop.has_capacity, Bool.and_eq_true, beq_iff_eq,
          decide_eq_true_eq] at hcap
        exact hcap.2
      have hshop : (p.1.reserve_capacity item.quantity).2
          = { p.1 with current_capacity := p.1.current_capacity - item.quantity } := by
        rw [PrintShop.reserve_capacity, if_pos hcap]
      simp only [Option.some.injEq, Prod.mk.injEq] at h
      obtain ⟨hp', _⟩ := h
      subst hp'
      constructor
      · rw [pairsCurSum_cons, pairsCurSum_cons, hshop]
        show p.1.current_capacity - item.quantity + pairsCurSum rest
          = p.1.current_capacity + pairsCurSum rest - item.quantity
        ring
      · intro hqn hb q hqmem
        rcases List.mem_cons.mp hqmem with hq1 | hq2
        · subst hq1
          have hpb := hb p (List.mem_cons_self _ _)
          rw [hshop]
          refine ⟨?_, ?_⟩
          · show 0 ≤ p.1.current_capacity - item.quantity
            omega
          · show p.1.current_capacity - item.quantity ≤ p.1.daily_capacity
            omega
        · exact hb q (List.mem_cons_of_mem _ hq2)
    · revert h
      cases hrec : allocScan item rest with
      | none => intro h; simp at h
      | some v =>
        intro h
        simp only [Option.some.injEq, Prod.mk.injEq] at h
        obtain ⟨hp', _⟩ := h
        subst hp'
        obtain ⟨ihsum, ihb⟩ := ih hrec
        constructor
        · rw [pairsCurSum_cons, pairsCurSum_cons, ihsum]
          ring
        · intro hqn hb q hqmem
          rcases List.mem_cons.mp hqmem with hq1 | hq2
          · rw [hq1]; exact hb p (List.mem_cons_self _ _)
          · exact ihb hqn (fun r hr => hb r (List.mem_cons_of_mem _ hr)) q hq2

theorem allocLoop_some_effects :
    ∀ (items : List OrderItem) (pairs : List (PrintShop × Int))
      (alloc allocF : List (String × List OrderItem)) (ns' : List PrintShop),
      allocLoop items pairs alloc = (some allocF, ns') →
      (∀ it ∈ items, 0 ≤ it.quantity) →
      (∀ p ∈ pairs, 0 ≤ p.1.current_capacity ∧ p.1.current_capacity ≤ p.1.daily_capacity) →
      (curSum ns' = pairsCurSum pairs - (allocTotal allocF - allocTotal alloc))
      ∧ (∀ s ∈ ns', 0 ≤ s.current_capacity ∧ s.current_capacity ≤ s.daily_capacity) := by
  intro items
  induction items with
  | nil =>
    intro pairs alloc allocF ns' h _ hb
    rw [allocLoop] at h
    simp only [Prod.mk.injEq, Option.some.injEq] at h
    obtain ⟨hfa, hns⟩ := h
    subst hfa
    subst hns
    constructor
    · show curSum (pairs.map Prod.fst) = pairsCurSum pairs - (allocTotal alloc - allocTotal alloc)
      rw [sub_self, sub_zero]
      rfl
    · intro s hs
      obtain ⟨p, hp, hps⟩ := List.mem_map.mp hs
      exact hps ▸ hb p hp
  | cons item rest ih =>
    intro pairs alloc allocF ns' h hqs hb
    rw [allocLoop] at h
    cases hscan : allocScan item pairs with
    | none => rw [hscan] at h; simp at h
    | some v =>
      obtain ⟨pairs', sid⟩ := v
      rw [hscan] at h
      have hqn : 0 ≤ item.quantity := hqs item (List.mem_cons_self _ _)
      obtain ⟨hsum, hbnd⟩ := allocScan_effects hscan
      have hb' := hbnd hqn hb
      obtain ⟨ihsum, ihb⟩ := ih pairs' (addAlloc alloc sid item) allocF ns' h
        (fun it hit => hqs it (List.mem_cons_of_mem _ hit)) hb'
      refine ⟨?_, ihb⟩
      rw [ihsum, hsum, addAlloc_total]
      ring

/-- Balance and bounds preserved by a single `allocate_order` call, in both
the successful and the rolled-back case: the difference between the summed
member capacities and the recorded `available_capacity` is unchanged, and
the member capacity bounds are preserved. -/
theorem allocate_order_balance (c : Cluster) (o : Order)
    (hq : ∀ it ∈ o.items, 0 ≤ it.quantity)
    (hb : ∀ s ∈ c.nodes, 0 ≤ s.current_capacity ∧ s.current_capacity ≤ s.daily_capacity) :
    (curSum (c.allocate_order o).2.nodes - (c.allocate_order o).2.metrics.available_capacity
      = curSum c.nodes - c.metrics.available_capacity)
    ∧ (∀ s ∈ (c.allocate_order o).2.nodes,
        0 ≤ s.current_capacity ∧ s.current_capacity ≤ s.daily_capacity) := by
  have hsortb : ∀ s ∈ sortByKeyDesc PrintShop.daily_capacity c.nodes,
      0 ≤ s.current_capacity ∧ s.current_capacity ≤ s.daily_capacity := by
    intro s hs
    exact hb s ((sortByKeyDesc_perm PrintShop.daily_capacity c.nodes).mem_iff.mp hs)
  have hsortsum : curSum (sortByKeyDesc PrintShop.daily_capacity c.nodes) = curSum c.nodes :=
    curSum_perm (sortByKeyDesc_perm PrintShop.daily_capacity c.nodes)
  have hinitb : ∀ p ∈ (sortByKeyDesc PrintShop.daily_capacity c.nodes).map
      (fun s => (s, (0 : Int))),
      0 ≤ p.1.current_capacity ∧ p.1.current_capacity ≤ p.1.daily_capacity := by
    intro p hp
    obtain ⟨s, hs, hps⟩ := List.mem_map.mp hp
    exact hps ▸ hsortb s hs
  have hinitsum : pairsCurSum ((sortByKeyDesc PrintShop.daily_capacity c.nodes).map
      (fun s => (s, (0 : Int))))
      = curSum (sortByKeyDesc PrintShop.daily_capacity c.nodes) := by
    rw [pairsCurSum, List.map_map]
    congr 1
    exact List.map_congr_left (fun s _ => rfl) |>.trans (List.map_id _)
  cases hres : (allocLoop o.items
      ((sortByKeyDesc PrintShop.daily_capacity c.nodes).map (fun s => (s, (0 : Int))))
      []).1 with
  | none =>
    have hinv : ∀ s ∈ sortByKeyDesc PrintShop.daily_capacity c.nodes,
        s.current_capacity ≤ s.daily_capacity := fun s hs => (hsortb s hs).2
    have hnodes := allocLoop_none_rollback o.items _ [] _ (reservedFrom_init _) hinv hres
    have hro : c.allocate_order o
        = (none, { c with nodes := (allocLoop o.items
            ((sortByKeyDesc PrintShop.daily_capacity c.nodes).map (fun s => (s, (0 : Int))))
            []).2 }) := by
      rw [Cluster.allocate_order]
      rw [hres]
    rw [hro]
    constructor
    · show curSum (allocLoop o.items
          ((sortByKeyDesc PrintShop.daily_capacity c.nodes).map (fun s => (s, (0 : Int))))
          []).2 - c.metrics.available_capacity
        = curSum c.nodes - c.metrics.available_capacity
      rw [hnodes, hsortsum]
    · intro s hs
      have hs' : s ∈ (allocLoop o.items
          ((sortByKeyDesc PrintShop.daily_capacity c.nodes).map (fun s => (s, (0 : Int))))
          []).2 := hs
      rw [hnodes] at hs'
      exact hsortb s hs'
  | some alloc =>
    have hpair : allocLoop o.items
        ((sortByKeyDesc PrintShop.daily_capacity c.nodes).map (fun s => (s, (0 : Int)))) []
        = (some alloc, (allocLoop o.items
            ((sortByKeyDesc PrintShop.daily_capacity c.nodes).map
              (fun s => (s, (0 : Int)))) []).2) := by
      rw [← hres]
    obtain ⟨hsum, hbnd⟩ := allocLoop_some_effects o.items _ [] alloc _ hpair hq hinitb
    have hro : c.allocate_order o
        = (some alloc,
            { c with
              nodes := (allocLoop o.items
                ((sortByKeyDesc PrintShop.daily_capacity c.nodes).map
                  (fun s => (s, (0 : Int)))) []).2,
              metrics :=
                { c.metrics with
                  available_capacity := c.metrics.available_capacity - allocTotal alloc,
                  active_orders := c.metrics.active_orders + 1,
                  total_orders_processed := c.metrics.total_orders_processed + 1 } }) := by
      rw [Cluster.allocate_order]
      rw [hres]
    rw [hro]
    constructor
    · show curSum (allocLoop o.items
          ((sortByKeyDesc PrintShop.daily_capacity c.nodes).map (fun s => (s, (0 : Int))))
          []).2 - (c.metrics.available_capacity - allocTotal alloc)
        = curSum c.nodes - c.metrics.available_capacity
      rw [hsum, hinitsum, hsortsum]
      show curSum c.nodes - (allocTotal alloc - allocTotal [])
          - (c.metrics.available_capacity - allocTotal alloc)
        = curSum c.nodes - c.metrics.available_capacity
      have hnil : allocTotal [] = 0 := rfl
      rw [hnil]
      ring
    · exact hbnd

/-- One cluster operation of claim C5: `add_node`, `remove_node`, or an
`allocate_order` call. -/
inductive ClusterOp
  | add (s : PrintShop)
  | remove (s : PrintShop)
  | allocate (o : Order)
deriving DecidableEq

def ClusterOp.isRemove : ClusterOp → Bool
  | .remove _ => true
  | _ => false

/-- Apply one cluster operation (booleans and allocation results are
discarded; a rejected `add_node` and a failed — rolled-back —
`allocate_order` leave the cluster unchanged). -/
def Cluster.applyOp (dist : Location → Location → Rat) (c : Cluster) :
    ClusterOp → Cluster
  | .add s => (c.add_node dist s).2
  | .remove s => c.remove_node s
  | .allocate o => (c.allocate_order o).2

/-- The inductive state of claim C5's amended invariant: the recorded
available capacity is the sum of the members' current capacities, and every
member satisfies the node capacity bounds. -/
def ClusterBalanced (c : Cluster) : Prop :=
  c.metrics.available_capacity = curSum c.nodes ∧
    ∀ s ∈ c.nodes, 0 ≤ s.current_capacity ∧ s.current_capacity ≤ s.daily_capacity

theorem applyOp_balanced (dist : Location → Location → Rat) (c : Cluster)
    (op : ClusterOp)
    (hnorem : op.isRemove = false)
    (hadd : ∀ s : PrintShop, op = ClusterOp.add s →
        s.current_capacity = s.daily_capacity ∧ 0 ≤ s.daily_capacity)
    (halloc : ∀ o : Order, op = ClusterOp.allocate o → ∀ it ∈ o.items, 0 ≤ it.quantity)
    (hbal : ClusterBalanced c) :
    ClusterBalanced (c.applyOp dist op) := by
  obtain ⟨hsum, hb⟩ := hbal
  cases op with
  | remove s => simp [ClusterOp.isRemove] at hnorem
  | add s =>
    obtain ⟨hfresh, hdaily⟩ := hadd s rfl
    rw [Cluster.applyOp, Cluster.add_node]
    split
    · constructor
      · show c.metrics.available_capacity + s.daily_capacity = curSum (c.nodes ++ [s])
        rw [hsum]
        simp only [curSum, List.map_append, List.sum_append, List.map_cons,
          List.map_nil, List.sum_cons, List.sum_nil]
        rw [hfresh]
        ring
      · intro t ht
        rcases List.mem_append.mp ht with ht1 | ht2
        · exact hb t ht1
        · rw [List.mem_singleton.mp ht2]
          constructor
          · rw [hfresh]; exact hdaily
          · exact le_of_eq hfresh
    · exact ⟨hsum, hb⟩
  | allocate o =>
    obtain ⟨heq, hbnd⟩ := allocate_order_balance c o (halloc o rfl) hb
    refine ⟨?_, hbnd⟩
    rw [Cluster.applyOp]
    omega

/-- **C5 (amended).** For any sequence of `add_node` (of freshly created
nodes) and `allocate_order` calls — no `remove_node` — starting from a
balanced cluster (e.g. a newly created empty one), `metrics.available_capacity`
equals the sum of the members' current capacities and is therefore never
negative.  (`remove_node` is excluded: see the counterexample, where
removing a member whose capacity was consumed by an allocation drives
`available_capacity` negative.) -/
theorem cluster_available_capacity_nonneg (dist : Location → Location → Rat)
    (c0 : Cluster) (ops : List ClusterOp)
    (hbal : ClusterBalanced c0)
    (hnorem : ∀ op ∈ ops, op.isRemove = false)
    (hadd : ∀ s : PrintShop, ClusterOp.add s ∈ ops →
        s.current_capacity = s.daily_capacity ∧ 0 ≤ s.daily_capacity)
    (halloc : ∀ o : Order, ClusterOp.allocate o ∈ ops → ∀ it ∈ o.items, 0 ≤ it.quantity) :
    0 ≤ (ops.foldl (Cluster.applyOp dist) c0).metrics.available_capacity := by
  have main : ∀ (l : List ClusterOp) (c : Cluster),
      ClusterBalanced c →
      (∀ op ∈ l, op.isRemove = false) →
      (∀ s : PrintShop, ClusterOp.add s ∈ l →
          s.current_capacity = s.daily_capacity ∧ 0 ≤ s.daily_capacity) →
      (∀ o : Order, ClusterOp.allocate o ∈ l → ∀ it ∈ o.items, 0 ≤ it.quantity) →
      ClusterBalanced (l.foldl (Cluster.applyOp dist) c) := by
    intro l
    induction l with
    | nil => intro c hc _ _ _; exact hc
    | cons op rest ih =>
      intro c hc hnr ha hl
      rw [List.foldl_cons]
      exact ih (c.applyOp dist op)
        (applyOp_balanced dist c op (hnr op (List.mem_cons_self _ _))
          (fun s hs => ha s (hs ▸ List.mem_cons_self _ _))
          (fun o ho => hl o (ho ▸ List.mem_cons_self _ _)) hc)
        (fun o ho => hnr o (List.mem_cons_of_mem _ ho))
        (fun s hs => ha s (List.mem_cons_of_mem _ hs))
        (fun o ho => hl o (List.mem_cons_of_mem _ ho))
  obtain ⟨hsum, hb⟩ := main ops c0 hbal hnorem hadd halloc
  rw [hsum]
  refine List.sum_nonneg ?_
  intro x hx
  obtain ⟨s, hs, hxs⟩ := List.mem_map.mp hx
  exact hxs ▸ (hb s hs).1

/-- Witness for the amended C5: a fresh cluster, one added node and one
successful allocation. -/
theorem cluster_available_capacity_nonneg_witness :
    let a : PrintShop :=
      { id := "a", name := "a", location := ⟨0, 0⟩,
        capabilities := [Capability.tshirt], daily_capacity := 100,
        status := ShopStatus.online, current_capacity := 100, inventory := [] }
    let c0 : Cluster :=
      { id := "k5w", center_location := ⟨0, 0⟩, radius_miles := 100,
        nodes := [], metrics := ⟨0, 0, 0, 0⟩ }
    let o : Order :=
      { id := "o5w", customer_location := ⟨0, 0⟩,
        items := [⟨Capability.tshirt, 40, "d", none⟩],
        status := OrderStatus.created, priority := OrderPriority.normal }
    let ops := [ClusterOp.add a, ClusterOp.allocate o]
    0 ≤ (ops.foldl (Cluster.applyOp (fun _ _ => 0)) c0).metrics.available_capacity := by
  refine cluster_available_capacity_nonneg (fun _ _ => 0) _ _ ⟨rfl, ?_⟩ ?_ ?_ ?_
  · intro s hs; exact absurd hs (List.not_mem_nil s)
  · intro op hop
    simp only [List.mem_cons, List.not_mem_nil, or_false] at hop
    rcases hop with h1 | h1 <;> rw [h1] <;> rfl
  · intro s hs
    simp only [List.mem_cons, List.not_mem_nil, or_false] at hs
    rcases hs with h1 | h1
    · injection h1 with h; subst h; exact ⟨rfl, by decide⟩
    · exact absurd h1 (by simp)
  · intro o ho
    simp only [List.mem_cons, List.not_mem_nil, or_false] at ho
    rcases ho with h1 | h1
    · exact absurd h1 (by simp)
    · injection h1 with h; subst h; decide

/-- **C5 (counterexample).** The claim as stated is false: adding a node of
capacity 100, successfully allocating 100 units (which decrements
`available_capacity` to 0), and then removing the node (which decrements
`available_capacity` by the node's full `daily_capacity` again) leaves
`metrics.available_capacity = -100 < 0`.  `fun _ _ => 0` stands in for the
Haversine distance, which is 0 between the co-located points used here. -/
theorem cluster_available_capacity_counterexample :
    let a : PrintShop :=
      { id := "a", name := "a", location := ⟨0, 0⟩,
        capabilities := [Capability.tshirt], daily_capacity := 100,
        status := ShopStatus.online, current_capacity := 100, inventory := [] }
    let c0 : Cluster :=
      { id := "k5", center_location := ⟨0, 0⟩, radius_miles := 100,
        nodes := [], metrics := ⟨0, 0, 0, 0⟩ }
    let o : Order :=
      { id := "o5", customer_location := ⟨0, 0⟩,
        items := [⟨Capability.tshirt, 100, "d", none⟩],
        status := OrderStatus.created, priority := OrderPriority.normal }
    let ops := [ClusterOp.add a, ClusterOp.allocate o, ClusterOp.remove a]
    (ops.foldl (Cluster.applyOp (fun _ _ => 0)) c0).metrics.available_capacity = -100 ∧
      (ops.foldl (Cluster.applyOp (fun _ _ => 0)) c0).metrics.available_capacity < 0 := by
  exact ⟨by decide, by decide⟩

/-! ## Optimizer (routing/optimizer.py) -/

/-- routing/optimizer.py `ShopScore`.  The `details` dictionary (the four
sub-scores) is embedded as the `distance_score`/`capability_score` fields
next to the two that are already top-level. -/
structure ShopScore where
  shop_id : String
  score : Rat
  distance : Rat
  capacity_score : Rat
  inventory_score : Rat
  distance_score : Rat
  capability_score : Rat
deriving DecidableEq

namespace RouteOptimizer

/-- Scoring weights and maximum distance (`RouteOptimizer.__init__`). -/
def weight_distance : Rat := 4/10

def weight_capacity : Rat := 3/10

def weight_inventory : Rat := 2/10

def weight_capability : Rat := 1/10

def max_distance : Rat := 500

/-- `RouteOptimizer._calculate_distance_score`. -/
def calculate_distance_score (dist : Location → Location → Rat)
    (shop_location customer_location : Location) : Rat :=
  let d := dist shop_location customer_location
  if max_distance < d then 0 else 1 - d / max_distance

/-- `RouteOptimizer._calculate_capacity_score`. -/
def calculate_capacity_score (s : PrintShop) (o : Order) : Rat :=
  if ¬ s.has_capacity o.totalQuantity then 0
  else (s.current_capacity : Rat) / (s.daily_capacity : Rat)

/-- `RouteOptimizer._calculate_inventory_score`.  Python's
`item.sku in shop.inventory` is False for an absent (`None`) sku, so such
an item scores 0; `1.0` is returned only for an empty item list. -/
def calculate_inventory_score (s : PrintShop) (o : Order) : Rat :=
  if o.items.isEmpty then 1
  else
    let inventory_scores := o.items.map (fun item =>
      match item.sku with
      | some sk =>
        match s.findInventory sk with
        | some it =>
          if item.quantity ≤ it.quantity then (1 : Rat)
          else (it.quantity : Rat) / (item.quantity : Rat)
        | none => (0 : Rat)
      | none => (0 : Rat))
    inventory_scores.sum / (inventory_scores.length : Rat)

/-- `RouteOptimizer._calculate_capability_score`.  The Python sets become
deduplicated lists. -/
def calculate_capability_score (s : PrintShop) (o : Order) : Rat :=
  let required := (o.items.map OrderItem.product_type).dedup
  if required.isEmpty then 1
  else ((required.filter (· ∈ s.capabilities)).length : Rat) / (required.length : Rat)

/-- `RouteOptimizer._can_possibly_fulfill`. -/
def can_possibly_fulfill (dist : Location → Location → Rat) (s : PrintShop)
    (o : Order) : Bool :=
  if ¬ s.has_capacity o.totalQuantity then false
  else if ¬ (o.items.all fun it => it.product_type ∈ s.capabilities) then false
  else if max_distance < dist s.location o.customer_location then false
  else true

/-- `RouteOptimizer.score_shops`: filter by the hard pre-check, keep
candidates with a positive weighted score, and sort descending by score.
The router invokes this as `score_nodes` (absent from the source tree);
modelled from the spec (§4.4): node scoring is this shop scoring applied
to the nodes' shop state. -/
def score_shops (dist : Location → Location → Rat) (o : Order)
    (available_shops : List PrintShop) : List ShopScore :=
  let raw := available_shops.filterMap (fun s =>
    if can_possibly_fulfill dist s o then
      let ds := calculate_distance_score dist s.location o.customer_location
      let cs := calculate_capacity_score s o
      let inv := calculate_inventory_score s o
      let caps := calculate_capability_score s o
      let total := weight_distance * ds + weight_capacity * cs
        + weight_inventory * inv + weight_capability * caps
      if 0 < total then
        some { shop_id := s.id, score := total,
               distance := dist s.location o.customer_location,
               capacity_score := cs, inventory_score := inv,
               distance_score := ds, capability_score := caps }
      else none
    else none)
  sortByKeyDesc ShopScore.score raw

/-- The cluster score of `RouteOptimizer.optimize_cluster_assignment`
(distance 0.5, capacity 0.3, capability 0.2; the capacity term is the raw
mean member capacity and the capability term counts all cluster
capabilities over the required ones, exactly as in the source). -/
def cluster_score (dist : Location → Location → Rat) (o : Order) (c : Cluster) : Rat :=
  let ds := calculate_distance_score dist c.center_location o.customer_location
  let cs := (curSum c.nodes : Rat) / ((max 1 c.nodes.length : Nat) : Rat)
  let caps := (((c.nodes.map PrintShop.capabilities).flatten.dedup).length : Rat)
      / (((o.items.map OrderItem.product_type).dedup).length : Rat)
  ds * (5/10) + cs * (3/10) + caps * (2/10)

/-- The `for cluster in clusters` loop of
`RouteOptimizer.optimize_cluster_assignment`.  Scoring an admissible
cluster divides by `len(set(item.product_type for item in order.items))`
(optimizer.py:119-121) with no guard: for an order with no product types
this raises `ZeroDivisionError` (message "division by zero") before the
score comparison, modelled as an `Except.error`. -/
def optimizeClusterFold (dist : Location → Location → Rat) (o : Order) :
    List (Nat × Cluster) → Option Nat × Rat → Except String (Option Nat × Rat)
  | [], acc => .ok acc
  | ic :: rest, acc =>
    if ¬ ic.2.can_fulfill_order o then optimizeClusterFold dist o rest acc
    else if ((o.items.map OrderItem.product_type).dedup).isEmpty then
      .error "division by zero"
    else if acc.2 < cluster_score dist o ic.2 then
      optimizeClusterFold dist o rest (some ic.1, cluster_score dist o ic.2)
    else optimizeClusterFold dist o rest acc

/-- `RouteOptimizer.optimize_cluster_assignment`: best-scoring admissible
cluster (returned by position, standing for Python's object reference)
with its score; `(none, -1)` when no cluster qualifies; an uncaught
`ZeroDivisionError` when an admissible cluster is scored for an order with
no items. -/
def optimize_cluster_assignment (dist : Location → Location → Rat) (o : Order)
    (clusters : List Cluster) : Except String (Option Nat × Rat) :=
  optimizeClusterFold dist o clusters.enum (none, -1)

end RouteOptimizer

/-! ## Inventory sub-score (claim C9) -/

/-- The amended claim's description of the per-item inventory sub-score:
`min(1, inventoryLevel/requestedQty)` for a tracked SKU, 0 for an item
whose SKU is untracked or absent. -/
def specItemInventoryScore (s : PrintShop) (item : OrderItem) : Rat :=
  match item.sku with
  | some sk =>
    match s.findInventory sk with
    | some it => min 1 ((it.quantity : Rat) / (item.quantity : Rat))
    | none => 0
  | none => 0

theorem itemInventoryScore_eq (s : PrintShop) (item : OrderItem)
    (hqi : 0 < item.quantity) :
    (match item.sku with
      | some sk =>
        match s.findInventory sk with
        | some it =>
          if item.quantity ≤ it.quantity then (1 : Rat)
          else (it.quantity : Rat) / (item.quantity : Rat)
        | none => (0 : Rat)
      | none => (0 : Rat)) = specItemInventoryScore s item := by
  have hqr : (0 : Rat) < (item.quantity : Rat) := by exact_mod_cast hqi
  rw [specItemInventoryScore]
  cases item.sku with
  | none => rfl
  | some sk =>
    show (match s.findInventory sk with
        | some it =>
          if item.quantity ≤ it.quantity then (1 : Rat)
          else (it.quantity : Rat) / (item.quantity : Rat)
        | none => (0 : Rat))
      = (match s.findInventory sk with
        | some it => min 1 ((it.quantity : Rat) / (item.quantity : Rat))
        | none => (0 : Rat))
    cases s.findInventory sk with
    | none => rfl
    | some it =>
      show (if item.quantity ≤ it.quantity then (1 : Rat)
          else (it.quantity : Rat) / (item.quantity : Rat))
        = min 1 ((it.quantity : Rat) / (item.quantity : Rat))
      by_cases hle : item.quantity ≤ it.quantity
      · rw [if_pos hle]
        have h1 : (1 : Rat) ≤ (it.quantity : Rat) / (item.quantity : Rat) := by
          rw [le_div_iff₀ hqr, one_mul]
          exact_mod_cast hle
        rw [min_eq_left h1]
      · rw [if_neg hle]
        have h2 : (it.quantity : Rat) / (item.quantity : Rat) ≤ 1 := by
          rw [div_le_one hqr]
          exact_mod_cast le_of_lt (by omega : it.quantity < item.quantity)
        rw [min_eq_right h2]

/-- **C9 (amended).** The inventory sub-score is the average over the
order's items of `min(1, inventoryLevel/requestedQty)` for tracked SKUs,
with an item whose SKU is untracked **or absent** scoring 0; the score is
1.0 only for an order with an empty item list (not, as the claim states,
for every order without SKU-specific items). -/
theorem inventory_score_characterisation (s : PrintShop) (o : Order)
    (hq : ∀ it ∈ o.items, 0 < it.quantity) :
    RouteOptimizer.calculate_inventory_score s o
      = if o.items.isEmpty then 1
        else (o.items.map (specItemInventoryScore s)).sum / (o.items.length : Rat) := by
  rw [RouteOptimizer.calculate_inventory_score]
  cases hitems : o.items.isEmpty
  · simp only [Bool.false_eq_true, if_false]
    have hmap : o.items.map (fun item =>
        match item.sku with
        | some sk =>
          match s.findInventory sk with
          | some it =>
            if item.quantity ≤ it.quantity then (1 : Rat)
            else (it.quantity : Rat) / (item.quantity : Rat)
          | none => (0 : Rat)
        | none => (0 : Rat)) = o.items.map (specItemInventoryScore s) :=
      List.map_congr_left (fun item hitem => itemInventoryScore_eq s item (hq item hitem))
    rw [hmap, List.length_map]
  · simp [hitems]

/-- Witness for the amended C9 at a concrete shop and order mixing a
tracked short SKU, an untracked SKU, and an item without a SKU. -/
theorem inventory_score_characterisation_witness :
    let s : PrintShop :=
      { id := "w9", name := "w9", location := ⟨0, 0⟩,
        capabilities := [Capability.tshirt], daily_capacity := 100,
        status := ShopStatus.online, current_capacity := 100,
        inventory := [⟨"X", 4, 50, 1000⟩] }
    let o : Order :=
      { id := "o9", customer_location := ⟨0, 0⟩,
        items := [⟨Capability.tshirt, 10, "d0", some "X"⟩,
                  ⟨Capability.tshirt, 10, "d1", some "Y"⟩,
                  ⟨Capability.tshirt, 10, "d2", none⟩],
        status := OrderStatus.created, priority := OrderPriority.normal }
    RouteOptimizer.calculate_inventory_score s o
      = if o.items.isEmpty then 1
        else (o.items.map (specItemInventoryScore s)).sum / (o.items.length : Rat) := by
  exact inventory_score_characterisation _ _ (by decide)

/-- **C9 (counterexample).** An order with one item and no SKU anywhere
("no SKU-specific items") scores 0, not the claimed 1.0: the source returns
1.0 only for an empty item list and scores a SKU-less item 0. -/
theorem inventory_score_no_sku_counterexample :
    let s : PrintShop :=
      { id := "s9c", name := "s9c", location := ⟨0, 0⟩,
        capabilities := [Capability.tshirt], daily_capacity := 100,
        status := ShopStatus.online, current_capacity := 100,
        inventory := [⟨"X", 10, 50, 1000⟩] }
    let o : Order :=
      { id := "o9c", customer_location := ⟨0, 0⟩,
        items := [⟨Capability.tshirt, 5, "d", none⟩],
        status := OrderStatus.created, priority := OrderPriority.normal }
    (∀ it ∈ o.items, it.sku = none) ∧
      RouteOptimizer.calculate_inventory_score s o = 0 ∧
      RouteOptimizer.calculate_inventory_score s o ≠ 1 := by
  refine ⟨by decide, ?_, ?_⟩ <;>
    norm_num [RouteOptimizer.calculate_inventory_score]

/-! ## Router (routing/router.py) -/

/-- routing/router.py `RoutingResult`.  The free-form `details` dictionary
is embedded as the `routing_type` tag and the `error` message; the
per-score payloads it can also carry are dropped. -/
structure RoutingResult where
  success : Bool
  order_id : String
  node_assignments : List (String × List Nat)
  estimated_time : Rat
  routing_type : Option String
  error : Option String
deriving DecidableEq

/-- routing/router.py `OrderRouter`: the node registry (a dict keyed by
shop id, so ids are unique by construction), the cluster list, and the
routing statistics. -/
structure OrderRouter where
  nodes : List PrintShop
  clusters : List Cluster
  total_orders : Int
  successful_routes : Int
  failed_routes : Int
deriving DecidableEq

namespace OrderRouter

/-- `self.max_split_shops` (default 3). -/
def max_split_shops : Nat := 3

/-- `self.max_split_clusters` (default 2). -/
def max_split_clusters : Nat := 2

/-- `self.nodes[node_id]`: dictionary lookup by shop id. -/
def lookupNode (shops : List PrintShop) (sid : String) : Option PrintShop :=
  shops.find? (fun s => s.id == sid)

/-- In-place mutation of the shop object: replace the (unique) shop with
this id. -/
def setNode : List PrintShop → String → PrintShop → List PrintShop
  | [], _, _ => []
  | t :: ts, sid, s' => if t.id == sid then s' :: ts else t :: setNode ts sid s'

/-- Modelled from the spec: `PrintShopNode.can_fulfill_entire_order` is
invoked by the direct tier (router.py:135) but absent from the source
tree.  Per spec §4.5, the direct tier assigns the whole order to "the
first node that can fulfill every item and successfully reserves capacity
for the aggregate quantity": the node must be able to fulfil every item. -/
def can_fulfill_entire_order (s : PrintShop) (o : Order) : Bool :=
  o.items.all (fun it => s.can_fulfill_item it.product_type it.quantity it.sku)

/-- `OrderRouter._build_assignments_from_allocation`: for each node of the
allocation, the indices of the order items equal (by value) to an item
allocated to that node. -/
def build_assignments (o : Order) (allocation : List (String × List OrderItem)) :
    List (String × List Nat) :=
  allocation.map (fun kv =>
    (kv.1, o.items.enum.filterMap (fun ii => if ii.2 ∈ kv.2 then some ii.1 else none)))

/-- The body of `OrderRouter._try_cluster_routing` once
`optimize_cluster_assignment` has returned normally: the best-scoring
cluster (when its score is positive) attempts `Cluster.route_order` and
its mutated state is written back in place.  An allocation that is the
empty dict is falsy under `if allocation:` (router.py:107), so it yields
no success, exactly like a `None` allocation. -/
def try_cluster_core (r : OrderRouter)
    (o : Order) (best : Option Nat × Rat) : Option RoutingResult × OrderRouter :=
  match best with
  | (some idx, score) =>
    if 0 < score then
      match r.clusters.get? idx with
      | some c =>
        let res := c.route_order o
        let r' := { r with clusters := r.clusters.set idx res.2 }
        match res.1 with
        | some allocation =>
          if allocation.isEmpty then (none, r')
          else
            (some { success := true, order_id := o.id,
                    node_assignments := build_assignments o allocation,
                    estimated_time := o.estimated_production_time,
                    routing_type := some "cluster", error := none }, r')
        | none => (none, r')
      | none => (none, r)
    else (none, r)
  | (none, _) => (none, r)

/-- `OrderRouter._try_cluster_routing`.  The `ZeroDivisionError` that
`optimize_cluster_assignment` can raise (see `optimizeClusterFold`)
propagates uncaught out of this tier; it is raised before any router or
cluster state is mutated. -/
def try_cluster_routing (dist : Location → Location → Rat) (r : OrderRouter)
    (o : Order) : Except String (Option RoutingResult × OrderRouter) :=
  match RouteOptimizer.optimize_cluster_assignment dist o r.clusters with
  | .error e => .error e
  | .ok best => .ok (try_cluster_core r o best)

/-- The `for node_score in node_scores` scan of
`OrderRouter._try_direct_node_routing`: the first scored node that can
fulfil the entire order and reserves the aggregate quantity gets it all. -/
def directScan (o : Order) (shops : List PrintShop) :
    List ShopScore → Option (RoutingResult × List PrintShop)
  | [] => none
  | e :: rest =>
    match lookupNode shops e.shop_id with
    | some s =>
      if can_fulfill_entire_order s o && (s.reserve_capacity o.totalQuantity).1 then
        some ({ success := true, order_id := o.id,
                node_assignments := [(s.id, List.range o.items.length)],
                estimated_time := o.estimated_production_time,
                routing_type := some "direct_node", error := none },
              setNode shops s.id (s.reserve_capacity o.totalQuantity).2)
      else directScan o shops rest
    | none => directScan o shops rest

/-- `OrderRouter._try_direct_node_routing`.  `optimizer.score_nodes` is
absent from the source tree; modelled from the spec (§4.4/§4.5) as
`score_shops` over the nodes' shop state. -/
def try_direct_node_routing (dist : Location → Location → Rat) (r : OrderRouter)
    (o : Order) : Option RoutingResult × OrderRouter :=
  match directScan o r.nodes (RouteOptimizer.score_shops dist o r.nodes) with
  | some v => (some v.1, { r with nodes := v.2 })
  | none => (none, r)

/-- One pass of the `for node_score in node_scores` loop of the split
tier: find the first scored node with a non-empty set of individually
fulfillable unassigned items (no sku is passed, as in router.py:177) whose
aggregate reservation succeeds; a failed reservation changes nothing and
the scan continues. -/
def findSplitAssign (o : Order) (shops : List PrintShop) (unassigned : List Nat) :
    List ShopScore → Option (List PrintShop × String × List Nat)
  | [] => none
  | e :: rest =>
    match lookupNode shops e.shop_id with
    | some s =>
      let fulfillable := unassigned.filter (fun i =>
        match o.items.get? i with
        | some it => s.can_fulfill_item it.product_type it.quantity none
        | none => false)
      if fulfillable.isEmpty then findSplitAssign o shops unassigned rest
      else
        let qty := (fulfillable.map (fun i =>
          match o.items.get? i with
          | some it => it.quantity
          | none => 0)).sum
        if (s.reserve_capacity qty).1 then
          some (setNode shops s.id (s.reserve_capacity qty).2, s.id, fulfillable)
        else findSplitAssign o shops unassigned rest
    | none => findSplitAssign o shops unassigned rest

/-- `assignments[node.shop.id] = fulfillable_indices` (dict update). -/
def dictSet : List (String × List Nat) → String → List Nat → List (String × List Nat)
  | [], sid, v => [(sid, v)]
  | kv :: rest, sid, v =>
    if kv.1 == sid then (kv.1, v) :: rest else kv :: dictSet rest sid v

/-- The `while unassigned_items` loop of the split tier.  The fuel
argument (`items.length + 1` at the top-level call) bounds the iteration
count; each productive iteration strictly shrinks `unassigned`, so the
fuel can never run out on a path the loop actually takes.  The check
`len(assignments) >= max_split_shops` happens after a successful
assignment, before the loop condition is re-tested, exactly as in the
source. -/
def splitLoop (dist : Location → Location → Rat) (o : Order) (fuel : Nat)
    (unassigned : List Nat) (shops : List PrintShop)
    (assignments : List (String × List Nat)) :
    Option RoutingResult × List PrintShop :=
    if unassigned.isEmpty then
      (some { success := true, order_id := o.id, node_assignments := assignments,
              estimated_time := o.estimated_production_time * (12/10),
              routing_type := some "split_node", error := none }, shops)
    else
      match fuel with
      | 0 => (none, shops)
      | fuel' + 1 =>
        match findSplitAssign o shops unassigned
            (RouteOptimizer.score_shops dist o shops) with
        | none => (none, shops)
        | some v =>
          let assignments' := dictSet assignments v.2.1 v.2.2
          if max_split_shops ≤ assignments'.length then (none, v.1)
          else splitLoop dist o fuel' (unassigned.filter (fun i => i ∉ v.2.2)) v.1
            assignments'

/-- `OrderRouter._try_split_node_routing` (no rollback of reservations is
performed anywhere in this tier, as in the source). -/
def try_split_node_routing (dist : Location → Location → Rat) (r : OrderRouter)
    (o : Order) : Option RoutingResult × OrderRouter :=
  let res := splitLoop dist o (o.items.length + 1) (List.range o.items.length) r.nodes []
  (res.1, { r with nodes := res.2 })

/-- Modelled from the spec: `RouteOptimizer.score_clusters`, invoked by
the multi-cluster tier but absent from the source tree.  Per spec §4.4
the admissible clusters (hard pre-check `can_fulfill_order`) are ranked
descending by the cluster composite score; clusters are referenced by
position. -/
def score_clusters (dist : Location → Location → Rat) (o : Order)
    (clusters : List Cluster) : List (Nat × Rat) :=
  sortByKeyDesc Prod.snd
    ((clusters.enum.filter (fun ic => ic.2.can_fulfill_order o)).map
      (fun ic => (ic.1, RouteOptimizer.cluster_score dist o ic.2)))

/-- The `rem_map` dictionary of `OrderRouter._try_multi_cluster_routing`,
keyed by order-item value (a later duplicate key overwrites an earlier
one, as in a Python dict comprehension). -/
def lookupRemMap (m : List (OrderItem × Nat)) (it : OrderItem) : Option Nat :=
  (m.reverse.find? (fun kv => kv.1 == it)).map Prod.snd

/-- Remove every index that appears in some assignment list. -/
def removeAssigned (unassigned : List Nat) (assignments : List (String × List Nat)) :
    List Nat :=
  unassigned.filter (fun i => ¬ assignments.any (fun kv => i ∈ kv.2))

/-- The `for cluster_score in cluster_scores` loop of
`OrderRouter._try_multi_cluster_routing`, threading the unassigned index
set, the accumulated assignments and the cluster list.  The sub-order
is rebuilt from the still-unassigned items with default status/priority,
as in the source; an empty allocation dict is falsy under
`if allocation:` (router.py:234) and is skipped like a `None`. -/
def multiClusterLoop (dist : Location → Location → Rat) (o : Order) :
    List (Nat × Rat) → List Nat → List (String × List Nat) → List Cluster →
      List Nat × List (String × List Nat) × List Cluster
  | [], unassigned, assignments, clusters => (unassigned, assignments, clusters)
  | e :: rest, unassigned, assignments, clusters =>
    if unassigned.isEmpty then (unassigned, assignments, clusters)
    else
      match clusters.get? e.1 with
      | none => multiClusterLoop dist o rest unassigned assignments clusters
      | some c =>
        let subOrder : Order :=
          { id := o.id, customer_location := o.customer_location,
            items := unassigned.filterMap (fun i => o.items.get? i),
            status := OrderStatus.created, priority := OrderPriority.normal }
        let res := c.route_order subOrder
        let clusters' := clusters.set e.1 res.2
        match res.1 with
        | none => multiClusterLoop dist o rest unassigned assignments clusters'
        | some allocation =>
          if allocation.isEmpty then
            multiClusterLoop dist o rest unassigned assignments clusters'
          else
          let cluster_assignments := build_assignments subOrder allocation
          let rem_map := subOrder.items.zip unassigned
          let assignments' := cluster_assignments.foldl (fun acc kv =>
            dictSet acc kv.1 (kv.2.filterMap (fun i =>
              match subOrder.items.get? i with
              | some it => lookupRemMap rem_map it
              | none => none))) assignments
          let unassigned' := removeAssigned unassigned assignments'
          if max_split_clusters ≤ assignments'.length then
            (unassigned', assignments', clusters')
          else multiClusterLoop dist o rest unassigned' assignments' clusters'

/-- `OrderRouter._try_multi_cluster_routing`. -/
def try_multi_cluster_routing (dist : Location → Location → Rat) (r : OrderRouter)
    (o : Order) : Option RoutingResult × OrderRouter :=
  if r.clusters.length < 2 then (none, r)
  else
    let res := multiClusterLoop dist o (score_clusters dist o r.clusters)
      (List.range o.items.length) [] r.clusters
    let r' := { r with clusters := res.2.2 }
    if res.1.isEmpty then
      (some { success := true, order_id := o.id, node_assignments := res.2.1,
              estimated_time := o.estimated_production_time * (13/10),
              routing_type := some "multi_cluster", error := none }, r')
    else (none, r')

/-- The terminal failure result of `route_order`. -/
def failResult (o : Order) : RoutingResult :=
  { success := false, order_id := o.id, node_assignments := [],
    estimated_time := 0, routing_type := none,
    error := some "No viable routing solution found" }

/-- The early-return pattern `if result and result.success: … return result`
of `route_order`: on a successful result bump the success counter and
return it, otherwise continue with the next tier. -/
def stepTier (p : Option RoutingResult × OrderRouter)
    (k : OrderRouter → RoutingResult × OrderRouter) : RoutingResult × OrderRouter :=
  match p.1 with
  | some res =>
    if res.success then
      (res, { p.2 with successful_routes := p.2.successful_routes + 1 })
    else k p.2
  | none => k p.2

/-- routing/router.py `OrderRouter.route_order`: the four tiers in source
order with their guards (`if self.clusters:` around tier 1,
`if len(self.clusters) > 1:` around tier 4), each early-returning on a
successful result, with the statistics counters updated as in the source.
The `try/except Exception` wrapper (router.py:52, 89-98) is represented
for the one exception reachable in the embedded fragment: the
`ZeroDivisionError` raised while ranking clusters for an empty-item order
(see `optimizeClusterFold`); the handler counts a failed route and returns
the terminal failure carrying `str(e)` without attempting the remaining
tiers.  The raise happens before any state mutation, so the handler sees
the router with only `total_orders` bumped.  Every other division executed
by the tiers is either guarded in the source or has a non-zero denominator
for orders with positive item quantities under the capacity invariant
`0 ≤ current ≤ daily` (see `route_order_tier_order`). -/
def route_order (dist : Location → Location → Rat) (r : OrderRouter) (o : Order) :
    RoutingResult × OrderRouter :=
  let r0 := { r with total_orders := r.total_orders + 1 }
  match (if r0.clusters.isEmpty then Except.ok (none, r0)
         else try_cluster_routing dist r0 o :
           Except String (Option RoutingResult × OrderRouter)) with
  | .error e =>
    ({ success := false, order_id := o.id, node_assignments := [],
       estimated_time := 0, routing_type := none, error := some e },
     { r0 with failed_routes := r0.failed_routes + 1 })
  | .ok p1 =>
    stepTier p1
      (fun s1 => stepTier (try_direct_node_routing dist s1 o)
        (fun s2 => stepTier (try_split_node_routing dist s2 o)
          (fun s3 => stepTier
            (if 1 < s3.clusters.length then try_multi_cluster_routing dist s3 o
             else (none, s3))
            (fun s4 => (failResult o, { s4 with failed_routes := s4.failed_routes + 1 })))))

end OrderRouter

/-! ## Tier order of route_order (claim C3) -/

/-- The claim's (exception-free) view of the cluster tier: the tier is
skipped when no cluster exists, and an exception raised while ranking the
clusters would merely count as a tier failure, leaving the state
untouched.  On orders with at least one item this coincides with the
source's tier (no exception is then reachable); on an empty-item order it
differs from `route_order`, which aborts the whole cascade instead — see
the counterexample. -/
def clusterTierTotal (dist : Location → Location → Rat) (o : Order)
    (s : OrderRouter) : Option RoutingResult × OrderRouter :=
  if s.clusters.isEmpty then (none, s)
  else
    match OrderRouter.try_cluster_routing dist s o with
    | .ok p => p
    | .error _ => (none, s)

/-- The four routing tiers in the claim's stated order — cluster routing
(skipped when no cluster exists), direct single-node routing, split across
nodes, and split across clusters (only when more than one cluster exists)
— each as a state transformer. -/
def routingTiers (dist : Location → Location → Rat) (o : Order) :
    List (OrderRouter → Option RoutingResult × OrderRouter) :=
  [fun s => clusterTierTotal dist o s,
   fun s => OrderRouter.try_direct_node_routing dist s o,
   fun s => OrderRouter.try_split_node_routing dist s o,
   fun s => if 1 < s.clusters.length then OrderRouter.try_multi_cluster_routing dist s o
            else (none, s)]

/-- Run a list of tiers in order on the threaded router state, stopping at
the first tier that returns a successful result. -/
def firstSuccess :
    List (OrderRouter → Option RoutingResult × OrderRouter) → OrderRouter →
      Option RoutingResult × OrderRouter
  | [], s => (none, s)
  | t :: ts, s =>
    match (t s).1 with
    | some res =>
      if res.success then (some res, (t s).2) else firstSuccess ts (t s).2
    | none => firstSuccess ts (t s).2

/-- The claim's reading of `route_order`: count the order, try the four
tiers in strict order stopping at the first success, and return the
terminal failure result only after every applicable tier has failed. -/
def route_order_firstSuccess (dist : Location → Location → Rat) (r : OrderRouter)
    (o : Order) : RoutingResult × OrderRouter :=
  match firstSuccess (routingTiers dist o) { r with total_orders := r.total_orders + 1 } with
  | (some res, s) => (res, { s with successful_routes := s.successful_routes + 1 })
  | (none, s) => (OrderRouter.failResult o, { s with failed_routes := s.failed_routes + 1 })

/-- The tier chain as folded by `route_order` (the hand-inlined sequence of
`stepTier` continuations). -/
def chainSteps (o : Order) :
    List (OrderRouter → Option RoutingResult × OrderRouter) → OrderRouter →
      RoutingResult × OrderRouter
  | [], s => (OrderRouter.failResult o, { s with failed_routes := s.failed_routes + 1 })
  | t :: ts, s => OrderRouter.stepTier (t s) (chainSteps o ts)

theorem chainSteps_eq_firstSuccess (o : Order) :
    ∀ (ts : List (OrderRouter → Option RoutingResult × OrderRouter)) (s : OrderRouter),
      chainSteps o ts s
        = match firstSuccess ts s with
          | (some res, s') => (res, { s' with successful_routes := s'.successful_routes + 1 })
          | (none, s') =>
            (OrderRouter.failResult o, { s' with failed_routes := s'.failed_routes + 1 }) := by
  intro ts
  induction ts with
  | nil => intro s; rfl
  | cons t ts ih =>
    intro s
    rw [chainSteps, firstSuccess, OrderRouter.stepTier]
    cases h1 : (t s).1 with
    | none => exact ih ((t s).2)
    | some res =>
      dsimp only []
      cases hb : res.success
      · simp only [hb, Bool.false_eq_true, if_false]
        exact ih ((t s).2)
      · simp only [hb, if_true]

/-- For an order with at least one item the cluster-ranking loop cannot
reach its division by zero: the required-product-type set is non-empty. -/
theorem optimizeClusterFold_ok (dist : Location → Location → Rat) (o : Order)
    (hne : o.items ≠ []) (l : List (Nat × Cluster)) :
    ∀ acc : Option Nat × Rat,
      ∃ v, RouteOptimizer.optimizeClusterFold dist o l acc = Except.ok v := by
  have hded : ¬ (((o.items.map OrderItem.product_type).dedup).isEmpty = true) := by
    intro h
    apply hne
    have h2 : (o.items.map OrderItem.product_type).dedup = [] :=
      List.isEmpty_iff.mp h
    have h3 : o.items.map OrderItem.product_type = [] :=
      (List.dedup_eq_nil _).mp h2
    exact List.map_eq_nil_iff.mp h3
  induction l with
  | nil => intro acc; exact ⟨acc, rfl⟩
  | cons ic rest ih =>
    intro acc
    rw [RouteOptimizer.optimizeClusterFold]
    by_cases hcf : ic.2.can_fulfill_order o = true
    · rw [if_neg (not_not_intro hcf), if_neg hded]
      by_cases hlt : acc.2 < RouteOptimizer.cluster_score dist o ic.2
      · rw [if_pos hlt]; exact ih _
      · rw [if_neg hlt]; exact ih acc
    · rw [if_pos hcf]
      exact ih acc

/-- For an order with at least one item the guarded cluster tier of
`route_order` returns normally, with exactly the value of the claim's
exception-free tier. -/
theorem tier1_ok_of_items_ne_nil (dist : Location → Location → Rat)
    (s : OrderRouter) (o : Order) (hne : o.items ≠ []) :
    (if s.clusters.isEmpty then Except.ok ((none : Option RoutingResult), s)
     else OrderRouter.try_cluster_routing dist s o)
      = Except.ok (clusterTierTotal dist o s) := by
  by_cases hemp : s.clusters.isEmpty = true
  · rw [if_pos hemp, clusterTierTotal, if_pos hemp]
  · obtain ⟨v, hv⟩ := optimizeClusterFold_ok dist o hne s.clusters.enum (none, -1)
    have hopt : RouteOptimizer.optimize_cluster_assignment dist o s.clusters
        = Except.ok v := by
      rw [RouteOptimizer.optimize_cluster_assignment]; exact hv
    rw [if_neg hemp, clusterTierTotal, if_neg hemp,
        OrderRouter.try_cluster_routing, hopt]

/-- **C3 (amended).** For an order with at least one item, `route_order`
visits the four tiers in strict order — cluster, then direct single-node,
then split across nodes, then (only when more than one cluster exists)
split across clusters — stopping at the first tier that produces a
successful result; whenever the cluster tier (or its empty-cluster guard)
and the direct tier both fail, the split-node tier runs, and the terminal
failure result is returned only after every applicable tier has failed:
`route_order` coincides with the first-success fold over the tier list.
The non-emptiness restriction is forced: for an order with **no** items
that meets an admissible cluster, scoring the cluster raises
`ZeroDivisionError` (optimizer.py:119-121), which `route_order`'s handler
(router.py:89-98) turns into the terminal failure without attempting the
remaining tiers — see the counterexample.  The other two hypotheses are
the order data model (positive quantities) and the node capacity
invariant; together with non-emptiness they delimit the domain on which no
division executed by the tiers has a zero denominator, so the total
embedding coincides with the source. -/
theorem route_order_tier_order (dist : Location → Location → Rat) (r : OrderRouter)
    (o : Order) (hne : o.items ≠ [])
    (hq : ∀ it ∈ o.items, 0 < it.quantity)
    (hcap : ∀ s ∈ r.nodes,
      0 ≤ s.current_capacity ∧ s.current_capacity ≤ s.daily_capacity) :
    OrderRouter.route_order dist r o = route_order_firstSuccess dist r o := by
  have h1 := tier1_ok_of_items_ne_nil dist
    { r with total_orders := r.total_orders + 1 } o hne
  have hkey : OrderRouter.route_order dist r o
      = chainSteps o (routingTiers dist o)
          { r with total_orders := r.total_orders + 1 } := by
    rw [OrderRouter.route_order]
    dsimp only [] at h1 ⊢
    rw [h1]
    rfl
  rw [hkey, route_order_firstSuccess]
  exact chainSteps_eq_firstSuccess o (routingTiers dist o) _

/-- A single offline shop: every tier fails on the witness input. -/
def c3wshop : PrintShop :=
  { id := "w3", name := "w3", location := ⟨0, 0⟩,
    capabilities := [Capability.tshirt], daily_capacity := 10,
    status := ShopStatus.offline, current_capacity := 10, inventory := [] }

def c3wrouter : OrderRouter :=
  { nodes := [c3wshop], clusters := [], total_orders := 0,
    successful_routes := 0, failed_routes := 0 }

def c3worder : Order :=
  { id := "ow3", customer_location := ⟨0, 0⟩,
    items := [⟨Capability.tshirt, 5, "dw", none⟩],
    status := OrderStatus.created, priority := OrderPriority.normal }

theorem route_order_tier_order_witness :
    OrderRouter.route_order (fun _ _ => 0) c3wrouter c3worder
      = route_order_firstSuccess (fun _ _ => 0) c3wrouter c3worder :=
  route_order_tier_order (fun _ _ => 0) c3wrouter c3worder
    (by decide) (by decide) (by decide)

/-- An online shop with ample capacity: it would take the empty order at
the direct tier. -/
def c3shop : PrintShop :=
  { id := "e3", name := "e3", location := ⟨0, 0⟩,
    capabilities := [Capability.tshirt], daily_capacity := 100,
    status := ShopStatus.online, current_capacity := 100, inventory := [] }

/-- A cluster that is admissible for the empty order (`can_fulfill_order`
holds vacuously), so ranking it divides by zero. -/
def c3cluster : Cluster :=
  { id := "k3", center_location := ⟨0, 0⟩, radius_miles := 50,
    nodes := [c3shop], metrics := ⟨100, 100, 0, 0⟩ }

def c3router : OrderRouter :=
  { nodes := [c3shop], clusters := [c3cluster], total_orders := 0,
    successful_routes := 0, failed_routes := 0 }

/-- `c3router` with the order counted, as the tiers see it. -/
def c3r1 : OrderRouter :=
  { nodes := [c3shop], clusters := [c3cluster], total_orders := 1,
    successful_routes := 0, failed_routes := 0 }

/-- An order with no items (the order data model places no lower bound on
the item list). -/
def c3emptyOrder : Order :=
  { id := "o3", customer_location := ⟨0, 0⟩, items := [],
    status := OrderStatus.created, priority := OrderPriority.normal }

/-- The result the direct tier produces for the empty order. -/
def c3dres : RoutingResult :=
  { success := true, order_id := "o3", node_assignments := [("e3", [])],
    estimated_time := c3emptyOrder.estimated_production_time,
    routing_type := some "direct_node", error := none }

theorem c3_score_shops :
    RouteOptimizer.score_shops (fun _ _ => 0) c3emptyOrder [c3shop]
      = [{ shop_id := "e3", score := 1, distance := 0, capacity_score := 1,
           inventory_score := 1, distance_score := 1, capability_score := 1 }] := by
  have hds : RouteOptimizer.calculate_distance_score (fun _ _ => 0)
      c3shop.location c3emptyOrder.customer_location = 1 := by
    rw [RouteOptimizer.calculate_distance_score]
    norm_num [RouteOptimizer.max_distance]
  have hcs : RouteOptimizer.calculate_capacity_score c3shop c3emptyOrder = 1 := by
    rw [RouteOptimizer.calculate_capacity_score, if_neg (by decide)]
    norm_num [c3shop]
  have hinv : RouteOptimizer.calculate_inventory_score c3shop c3emptyOrder = 1 := rfl
  have hcaps : RouteOptimizer.calculate_capability_score c3shop c3emptyOrder = 1 := rfl
  have htot : RouteOptimizer.weight_distance * 1 + RouteOptimizer.weight_capacity * 1
      + RouteOptimizer.weight_inventory * 1 + RouteOptimizer.weight_capability * 1
      = (1 : Rat) := by
    norm_num [RouteOptimizer.weight_distance, RouteOptimizer.weight_capacity,
      RouteOptimizer.weight_inventory, RouteOptimizer.weight_capability]
  rw [RouteOptimizer.score_shops]
  rw [List.filterMap_cons]
  rw [if_pos (show RouteOptimizer.can_possibly_fulfill (fun _ _ => 0) c3shop
      c3emptyOrder = true from by decide)]
  dsimp only []
  rw [hds, hcs, hinv, hcaps, htot]
  rw [if_pos (show (0 : Rat) < 1 from by norm_num)]
  rfl

theorem c3_direct_fst :
    (OrderRouter.try_direct_node_routing (fun _ _ => 0) c3r1 c3emptyOrder).1
      = some c3dres := by
  have hscan : OrderRouter.directScan c3emptyOrder [c3shop]
      [{ shop_id := "e3", score := 1, distance := 0, capacity_score := 1,
         inventory_score := 1, distance_score := 1, capability_score := 1 }]
      = some (c3dres, OrderRouter.setNode [c3shop] c3shop.id
          (c3shop.reserve_capacity c3emptyOrder.totalQuantity).2) := rfl
  rw [OrderRouter.try_direct_node_routing]
  rw [show c3r1.nodes = [c3shop] from rfl]
  rw [c3_score_shops, hscan]

/-- **C3 (counterexample).** An order with no items routed against an
admissible cluster: the source raises `ZeroDivisionError` while scoring
the cluster, and `route_order`'s exception handler returns the terminal
failure (error "division by zero") without attempting the later tiers —
although the direct-node tier, had it been attempted, would have succeeded
(the first-success reading of the claim returns a successful
"direct_node" result on the same input).  The claim's unconditional tier
cascade is therefore false. -/
theorem route_order_exception_counterexample :
    (OrderRouter.route_order (fun _ _ => 0) c3router c3emptyOrder).1.success
        = false ∧
    (OrderRouter.route_order (fun _ _ => 0) c3router c3emptyOrder).1.error
        = some "division by zero" ∧
    (route_order_firstSuccess (fun _ _ => 0) c3router c3emptyOrder).1.success
        = true ∧
    (route_order_firstSuccess (fun _ _ => 0) c3router c3emptyOrder).1.routing_type
        = some "direct_node" ∧
    OrderRouter.route_order (fun _ _ => 0) c3router c3emptyOrder
      ≠ route_order_firstSuccess (fun _ _ => 0) c3router c3emptyOrder := by
  have ht1 : clusterTierTotal (fun _ _ => 0) c3emptyOrder c3r1 = (none, c3r1) := by
    decide
  have hfs : firstSuccess (routingTiers (fun _ _ => 0) c3emptyOrder) c3r1
      = (some c3dres,
         (OrderRouter.try_direct_node_routing (fun _ _ => 0) c3r1 c3emptyOrder).2) := by
    simp only [routingTiers, firstSuccess, ht1, c3_direct_fst,
      show c3dres.success = true from rfl, if_true]
  have hchain : (route_order_firstSuccess (fun _ _ => 0) c3router c3emptyOrder).1
      = c3dres := by
    rw [route_order_firstSuccess]
    rw [show ({ c3router with total_orders := c3router.total_orders + 1 } :
        OrderRouter) = c3r1 from by decide]
    rw [hfs]
  have hsucc : (OrderRouter.route_order (fun _ _ => 0) c3router c3emptyOrder).1.success
      = false := by decide
  have hne2 : OrderRouter.route_order (fun _ _ => 0) c3router c3emptyOrder
      ≠ route_order_firstSuccess (fun _ _ => 0) c3router c3emptyOrder := by
    intro h
    have hf : (route_order_firstSuccess (fun _ _ => 0) c3router
        c3emptyOrder).1.success = false := by rw [← h]; exact hsucc
    rw [hchain] at hf
    exact absurd hf (by decide)
  exact ⟨hsucc, by decide, by rw [hchain]; rfl, by rw [hchain]; rfl, hne2⟩

/-! ## The split tier preserves capacities on failure (claim C2) -/

theorem range_qty_sum (l : List OrderItem) :
    ((List.range l.length).map (fun i =>
      match l.get? i with | some it => it.quantity | none => 0)).sum
      = (l.map OrderItem.quantity).sum := by
  induction l with
  | nil => rfl
  | cons x xs ih =>
    have hhead : (List.range (x :: xs).length).map (fun i =>
        match (x :: xs).get? i with | some it => it.quantity | none => 0)
        = x.quantity :: (List.range xs.length).map (fun i =>
            match xs.get? i with | some it => it.quantity | none => 0) := by
      rw [List.length_cons, List.range_succ_eq_map, List.map_cons, List.map_map]
      rfl
    rw [hhead, List.sum_cons, ih, List.map_cons, List.sum_cons]

theorem score_shops_mem {dist : Location → Location → Rat} {o : Order}
    {shops : List PrintShop} {e : ShopScore}
    (h : e ∈ RouteOptimizer.score_shops dist o shops) :
    ∃ s ∈ shops, e.shop_id = s.id ∧
      RouteOptimizer.can_possibly_fulfill dist s o = true := by
  rw [RouteOptimizer.score_shops] at h
  have h2 := (sortByKeyDesc_perm ShopScore.score _).mem_iff.mp h
  obtain ⟨s, hs, hsome⟩ := List.mem_filterMap.mp h2
  refine ⟨s, hs, ?_⟩
  by_cases hcan : RouteOptimizer.can_possibly_fulfill dist s o = true
  · refine ⟨?_, hcan⟩
    rw [if_pos hcan] at hsome
    dsimp only [] at hsome
    revert hsome
    split
    · intro hsome
      simp only [Option.some.injEq] at hsome
      rw [← hsome]
    · intro hsome
      simp at hsome
  · rw [if_neg hcan] at hsome
    simp at hsome

theorem lookupNode_self :
    ∀ {shops : List PrintShop}, (shops.map PrintShop.id).Nodup →
      ∀ {s : PrintShop}, s ∈ shops → OrderRouter.lookupNode shops s.id = some s := by
  intro shops
  induction shops with
  | nil => intro _ s hs; cases hs
  | cons t ts ih =>
    intro hnodup s hs
    rw [List.map_cons, List.nodup_cons] at hnodup
    rcases List.mem_cons.mp hs with h1 | h2
    · subst h1
      rw [OrderRouter.lookupNode]
      simp [List.find?]
    · have hne : (t.id == s.id) = false := by
        simp only [beq_eq_false_iff_ne, ne_eq]
        intro heq
        exact hnodup.1 (heq ▸ List.mem_map_of_mem PrintShop.id h2)
      rw [OrderRouter.lookupNode]
      simp only [List.find?, hne]
      exact ih hnodup.2 h2

/-- Decomposition of the hard pre-check. -/
theorem can_possibly_fulfill_spec {dist : Location → Location → Rat}
    {s : PrintShop} {o : Order}
    (h : RouteOptimizer.can_possibly_fulfill dist s o = true) :
    s.has_capacity o.totalQuantity = true ∧
      (o.items.all fun it => it.product_type ∈ s.capabilities) = true := by
  rw [RouteOptimizer.can_possibly_fulfill] at h
  by_cases h1 : s.has_capacity o.totalQuantity = true
  · refine ⟨h1, ?_⟩
    rw [if_neg (by simp [h1])] at h
    by_cases h2 : (o.items.all fun it => it.product_type ∈ s.capabilities) = true
    · exact h2
    · rw [if_pos (by simpa using h2)] at h
      cases h
  · rw [if_pos (by simpa using h1)] at h
    cases h

/-- Take-all: the first scored node individually fulfils every item of the
order (no sku is checked) and its aggregate reservation — the whole order
— succeeds, so `findSplitAssign` assigns it the complete index range. -/
theorem findSplitAssign_head_takes_all {dist : Location → Location → Rat}
    {o : Order} {shops : List PrintShop} {e : ShopScore} (rest : List ShopScore)
    (hq : ∀ it ∈ o.items, 0 ≤ it.quantity)
    (hnodup : (shops.map PrintShop.id).Nodup)
    (hmem : e ∈ RouteOptimizer.score_shops dist o shops)
    (hne : o.items ≠ []) :
    ∃ shops' sid,
      OrderRouter.findSplitAssign o shops (List.range o.items.length) (e :: rest)
        = some (shops', sid, List.range o.items.length) := by
  obtain ⟨s, hs, hid, hcan⟩ := score_shops_mem hmem
  obtain ⟨hcap, hall⟩ := can_possibly_fulfill_spec hcan
  have hon : s.status = ShopStatus.online := by
    rw [PrintShop.has_capacity, Bool.and_eq_true] at hcap
    simpa using hcap.1
  have htot : o.totalQuantity ≤ s.current_capacity := by
    rw [PrintShop.has_capacity, Bool.and_eq_true] at hcap
    simpa using hcap.2
  have hfulfill : ∀ i ∈ List.range o.items.length,
      (match o.items.get? i with
        | some it => s.can_fulfill_item it.product_type it.quantity none
        | none => false) = true := by
    intro i hi
    have hilt : i < o.items.length := List.mem_range.mp hi
    rw [List.get?_eq_get hilt]
    have hitmem : o.items.get ⟨i, hilt⟩ ∈ o.items := o.items.get_mem _ _
    set it := o.items.get ⟨i, hilt⟩ with hit
    show s.can_fulfill_item it.product_type it.quantity none = true
    have hpt : it.product_type ∈ s.capabilities := by
      have := List.all_eq_true.mp hall it hitmem
      simpa using this
    have hqle : it.quantity ≤ o.totalQuantity := by
      refine List.single_le_sum ?_ _ (List.mem_map_of_mem OrderItem.quantity hitmem)
      intro x hx
      obtain ⟨y, hy, hxy⟩ := List.mem_map.mp hx
      exact hxy ▸ hq y hy
    have hhc : s.has_capacity it.quantity = true := by
      rw [PrintShop.has_capacity]
      simp only [Bool.and_eq_true, beq_iff_eq, decide_eq_true_eq]
      exact ⟨hon, le_trans hqle htot⟩
    rw [PrintShop.can_fulfill_item, if_neg (by simpa using hpt),
      if_neg (by simp [hhc])]
  have hfilter : (List.range o.items.length).filter (fun i =>
      match o.items.get? i with
      | some it => s.can_fulfill_item it.product_type it.quantity none
      | none => false) = List.range o.items.length :=
    List.filter_eq_self.mpr hfulfill
  have hlen : o.items.length ≠ 0 := fun h0 => hne (List.eq_nil_of_length_eq_zero h0)
  have hrangene : ¬ ((List.range o.items.length).isEmpty = true) := by
    simpa [List.isEmpty_iff, List.range_eq_nil] using hlen
  have hqty : ((List.range o.items.length).map (fun i =>
      match o.items.get? i with | some it => it.quantity | none => 0)).sum
      = o.totalQuantity := range_qty_sum o.items
  have hres : (s.reserve_capacity (((List.range o.items.length).map (fun i =>
      match o.items.get? i with | some it => it.quantity | none => 0)).sum)).1 = true := by
    rw [hqty, PrintShop.reserve_capacity, if_pos hcap]
  rw [OrderRouter.findSplitAssign, hid, lookupNode_self hnodup hs]
  dsimp only []
  rw [hfilter, if_neg hrangene, if_pos hres]
  exact ⟨_, _, rfl⟩

/-- **C2.** Whenever the split-node tier fails (returns null), every
node's `current_capacity` — indeed the whole node store — equals its value
before the tier ran.  With the full-order pre-filter of the (spec-modelled)
`score_nodes`, the first scored node always takes every remaining item in
the first iteration, so a failing split attempt has made no reservation at
all and there is nothing to release.  Hypotheses: item quantities are
non-negative (the order data model requires them positive) and shop ids
are unique (the router keys its node registry by id). -/
theorem split_failure_capacity_preserved (dist : Location → Location → Rat)
    (r : OrderRouter) (o : Order)
    (hq : ∀ it ∈ o.items, 0 ≤ it.quantity)
    (hnodup : (r.nodes.map PrintShop.id).Nodup)
    (hfail : (OrderRouter.try_split_node_routing dist r o).1 = none) :
    (OrderRouter.try_split_node_routing dist r o).2.nodes = r.nodes := by
  have hfail' : (OrderRouter.splitLoop dist o (o.items.length + 1)
      (List.range o.items.length) r.nodes []).1 = none := hfail
  show (OrderRouter.splitLoop dist o (o.items.length + 1)
      (List.range o.items.length) r.nodes []).2 = r.nodes
  rw [OrderRouter.splitLoop] at hfail' ⊢
  by_cases hempty : ((List.range o.items.length).isEmpty = true)
  · rw [if_pos hempty] at hfail'
    cases hfail'
  · have hne : o.items ≠ [] := by
      intro h0
      exact hempty (by simp [h0])
    rw [if_neg hempty] at hfail' ⊢
    cases hscores : RouteOptimizer.score_shops dist o r.nodes with
    | nil => rfl
    | cons e rest =>
      obtain ⟨shops', sid, hfind⟩ := findSplitAssign_head_takes_all rest hq hnodup
        (hscores ▸ List.mem_cons_self e rest) hne
      rw [hscores, hfind] at hfail'
      dsimp only [] at hfail'
      rw [if_neg (by simp [OrderRouter.dictSet, OrderRouter.max_split_shops])] at hfail'
      have hfilter0 : (List.range o.items.length).filter
          (fun i => i ∉ List.range o.items.length) = [] := by
        refine List.filter_eq_nil_iff.mpr ?_
        intro a ha
        simp [ha]
      rw [hfilter0] at hfail'
      rw [OrderRouter.splitLoop.eq_def] at hfail'
      simp at hfail'

/-- Witness for C2: a one-shop fleet whose shop is OFFLINE, so the split
tier fails at once (no candidate is scored) with the node store intact. -/
theorem split_failure_capacity_preserved_witness :
    let s : PrintShop :=
      { id := "w2", name := "w2", location := ⟨0, 0⟩,
        capabilities := [Capability.tshirt], daily_capacity := 100,
        status := ShopStatus.offline, current_capacity := 100, inventory := [] }
    let r : OrderRouter :=
      { nodes := [s], clusters := [], total_orders := 0,
        successful_routes := 0, failed_routes := 0 }
    let o : Order :=
      { id := "o2", customer_location := ⟨0, 0⟩,
        items := [⟨Capability.tshirt, 5, "d", none⟩],
        status := OrderStatus.created, priority := OrderPriority.normal }
    (OrderRouter.try_split_node_routing (fun _ _ => 0) r o).1 = none ∧
      (OrderRouter.try_split_node_routing (fun _ _ => 0) r o).2.nodes = r.nodes := by
  exact ⟨by decide,
    split_failure_capacity_preserved _ _ _ (by decide) (by decide) (by decide)⟩

/-! ## Split coverage (claim C8): the concrete 250-unit scenario -/

/-- Three identical 100-capacity shops (the spec's
"100-capacity-max-per-shop" fleet). -/
def c8shopA : PrintShop :=
  { id := "a", name := "a", location := ⟨0, 0⟩,
    capabilities := [Capability.tshirt], daily_capacity := 100,
    status := ShopStatus.online, current_capacity := 100, inventory := [] }

def c8shopB : PrintShop :=
  { id := "b", name := "b", location := ⟨0, 0⟩,
    capabilities := [Capability.tshirt], daily_capacity := 100,
    status := ShopStatus.online, current_capacity := 100, inventory := [] }

def c8shopC : PrintShop :=
  { id := "c", name := "c", location := ⟨0, 0⟩,
    capabilities := [Capability.tshirt], daily_capacity := 100,
    status := ShopStatus.online, current_capacity := 100, inventory := [] }

/-- The geographic cluster of the three shops (as discovery would have
formed it: total and available capacity 300). -/
def c8cluster : Cluster :=
  { id := "k8", center_location := ⟨0, 0⟩, radius_miles := 100,
    nodes := [c8shopA, c8shopB, c8shopC], metrics := ⟨300, 300, 0, 0⟩ }

def c8router : OrderRouter :=
  { nodes := [c8shopA, c8shopB, c8shopC], clusters := [c8cluster],
    total_orders := 0, successful_routes := 0, failed_routes := 0 }

/-- A 250-unit order (three items of 100, 100 and 50 units of a product
every shop can produce; item-level splitting only, per the data model). -/
def c8order : Order :=
  { id := "o8", customer_location := ⟨0, 0⟩,
    items := [⟨Capability.tshirt, 100, "d0", none⟩,
              ⟨Capability.tshirt, 100, "d1", none⟩,
              ⟨Capability.tshirt, 50, "d2", none⟩],
    status := OrderStatus.created, priority := OrderPriority.normal }

/-- The allocation the cluster produces for `c8order`. -/
def alloc8 : List (String × List OrderItem) :=
  [("a", [⟨Capability.tshirt, 100, "d0", none⟩]),
   ("b", [⟨Capability.tshirt, 100, "d1", none⟩]),
   ("c", [⟨Capability.tshirt, 50, "d2", none⟩])]

/-- The cluster after the successful allocation. -/
def c8clusterAfter : Cluster :=
  { id := "k8", center_location := ⟨0, 0⟩, radius_miles := 100,
    nodes := [{ c8shopA with current_capacity := 0 },
              { c8shopB with current_capacity := 0 },
              { c8shopC with current_capacity := 50 }],
    metrics := ⟨300, 50, 1, 1⟩ }

/-- Total quantity assigned across nodes by a routing result. -/
def assignedQuantity (o : Order) (assignments : List (String × List Nat)) : Int :=
  (assignments.map (fun kv => (kv.2.map (fun i =>
    match o.items.get? i with | some it => it.quantity | none => 0)).sum)).sum

theorem c8_cluster_score :
    RouteOptimizer.cluster_score (fun _ _ => 0) c8order c8cluster = 307/10 := by
  rw [RouteOptimizer.cluster_score, RouteOptimizer.calculate_distance_score]
  rw [show curSum c8cluster.nodes = 300 from by decide]
  rw [show ((c8cluster.nodes.map PrintShop.capabilities).flatten.dedup).length = 1
    from by decide]
  rw [show ((c8order.items.map OrderItem.product_type).dedup).length = 1 from by decide]
  rw [show (max 1 c8cluster.nodes.length : Nat) = 3 from by decide]
  norm_num [RouteOptimizer.max_distance]

theorem c8_optimize :
    RouteOptimizer.optimize_cluster_assignment (fun _ _ => 0) c8order [c8cluster]
      = Except.ok (some 0, 307/10) := by
  rw [RouteOptimizer.optimize_cluster_assignment]
  rw [show ([c8cluster].enum) = [(0, c8cluster)] from rfl]
  rw [RouteOptimizer.optimizeClusterFold]
  rw [if_neg (by simp [show c8cluster.can_fulfill_order c8order = true from by decide])]
  rw [if_neg (by decide)]
  rw [show RouteOptimizer.cluster_score (fun _ _ => 0) c8order (0, c8cluster).2
      = 307/10 from c8_cluster_score]
  rw [if_pos (by norm_num)]
  rw [RouteOptimizer.optimizeClusterFold]

theorem c8_allocation :
    c8cluster.route_order c8order = (some alloc8, c8clusterAfter) := by decide

theorem c8_try_cluster : ∀ (r : OrderRouter), r.clusters = [c8cluster] →
    OrderRouter.try_cluster_routing (fun _ _ => 0) r c8order
      = Except.ok
          (some { success := true, order_id := "o8",
                  node_assignments := [("a", [0]), ("b", [1]), ("c", [2])],
                  estimated_time := c8order.estimated_production_time,
                  routing_type := some "cluster", error := none },
           { r with clusters := [c8clusterAfter] }) := by
  intro r hr
  rw [OrderRouter.try_cluster_routing, hr, c8_optimize]
  dsimp only []
  rw [OrderRouter.try_cluster_core, hr]
  rw [if_pos (by norm_num : (0 : Rat) < 307/10)]
  rw [show ([c8cluster].get? 0) = some c8cluster from rfl]
  dsimp only []
  rw [c8_allocation]
  dsimp only []
  rw [if_neg (by decide : ¬ alloc8.isEmpty = true)]
  rw [show ([c8cluster].set 0 c8clusterAfter) = [c8clusterAfter] from rfl]
  rw [show OrderRouter.build_assignments c8order alloc8
      = [("a", [0]), ("b", [1]), ("c", [2])] from by decide]
  rfl

/-- **C8.** Split coverage: on a fleet where every shop has daily capacity
at most 100, a 250-unit order of a product every shop can produce routes
successfully, with more than one node in `node_assignments` and a total
assigned quantity of 250 (delivered by the cluster tier, which splits at
item granularity across the three members). -/
theorem split_coverage_scenario :
    (OrderRouter.route_order (fun _ _ => 0) c8router c8order).1.success = true ∧
      1 < (OrderRouter.route_order (fun _ _ => 0) c8router c8order).1.node_assignments.length ∧
      assignedQuantity c8order
        (OrderRouter.route_order (fun _ _ => 0) c8router c8order).1.node_assignments = 250 ∧
      (∀ s ∈ c8router.nodes, s.daily_capacity ≤ 100) ∧
      c8order.totalQuantity = 250 := by
  have hroute : (OrderRouter.route_order (fun _ _ => 0) c8router c8order).1
      = { success := true, order_id := "o8",
          node_assignments := [("a", [0]), ("b", [1]), ("c", [2])],
          estimated_time := c8order.estimated_production_time,
          routing_type := some "cluster", error := none } := by
    rw [OrderRouter.route_order]
    dsimp only []
    rw [if_neg (by decide)]
    rw [c8_try_cluster _ rfl]
    rfl
  rw [hroute]
  exact ⟨rfl, by decide, by decide, by decide, by decide⟩
